import Mathlib

set_option maxRecDepth 16000
set_option maxHeartbeats 4000000

/-!
Verification development for the `tadox_proxy` Home Assistant integration
(hybrid TRV regulation).  The Python sources are shallowly embedded over ℚ
(real-valued temperatures and timestamps become exact rationals; the Python
`round(x, 1)` becomes round-half-to-even at a resolution of 0.1).

Modules embedded:
* `custom_components/tadox_proxy/hybrid_regulation.py` → namespace `HybridRegulation`
* `custom_components/tadox_proxy/climate.py`           → namespace `Climate`
* `custom_components/tadox_proxy/regulation.py`        → namespace `Regulation`
-/

namespace HybridRegulation

/-- Source `class HybridMode(str, Enum)`: operating modes for the hybrid controller. -/
inductive HybridMode where
  | hold
  | boost
  | coast
deriving DecidableEq

/-- Source `@dataclass class HybridConfig`: tunable parameters (defaults from source). -/
structure HybridConfig where
  min_target_c : ℚ := 5
  max_target_c : ℚ := 25
  max_offset_c : ℚ := 8
  kp : ℚ := 5
  ki_small : ℚ := 2 / 10000
  i_small_min_c : ℚ := -2
  i_small_max_c : ℚ := 2
  bias_tau_s : ℚ := 4 * 3600
  bias_deadband_c : ℚ := 1 / 10
  bias_trend_max_c_per_min : ℚ := 1 / 100
  bias_rate_limit_c_per_h : ℚ := 1 / 2
  bias_min_c : ℚ := -5
  bias_max_c : ℚ := 5
  dTdt_alpha : ℚ := 1 / 4
  trend_drop_threshold_c_per_min : ℚ := -3 / 100
  trend_rise_threshold_c_per_min : ℚ := 3 / 100
  predict_horizon_s : ℚ := 900
  overshoot_guard_c : ℚ := 2 / 10
  window_open_enabled : Bool := true
  window_open_drop_threshold_c_per_min : ℚ := -2 / 10
  window_open_hold_minutes : ℚ := 15
  hold_deadband_c : ℚ := 1 / 10
  boost_error_on_c : ℚ := 6 / 10
  boost_error_off_c : ℚ := 2 / 10
  boost_target_c : ℚ := 25
  boost_max_minutes : ℚ := 30
  coast_error_on_c : ℚ := -3 / 10
  coast_error_off_c : ℚ := -1 / 10
  coast_target_c : ℚ := 7
deriving DecidableEq

/-- Source `@dataclass class HybridState`: controller state persisting between cycles.
The `time.monotonic()` default of `mode_entered_monotonic_s` is supplied by the
caller when constructing an initial state. -/
structure HybridState where
  mode : HybridMode := .hold
  bias_c : ℚ := 0
  i_small_c : ℚ := 0
  dTdt_ema_c_per_s : ℚ := 0
  last_room_temp_c : Option ℚ := none
  mode_entered_monotonic_s : ℚ := 0
  window_open_until_monotonic_s : ℚ := 0
deriving DecidableEq

/-- Source `@dataclass class HybridResult`: result of one regulation cycle.  The
Python `debug_info` dict is modelled by the `dbg_*` fields (`raw_target`,
`mode_reason`, and the heating-disabled `reason` entry); the remaining debug
entries (`base`, window telemetry) are recomputable from the other fields. -/
structure HybridResult where
  target_c : ℚ
  mode : HybridMode
  error_c : ℚ
  p_term_c : ℚ
  i_small_c : ℚ
  bias_c : ℚ
  dTdt_ema_c_per_s : ℚ
  predicted_temp_c : Option ℚ
  new_state : HybridState
  dbg_raw_target : Option ℚ := none
  dbg_mode_reason : Option String := none
  dbg_reason : Option String := none
deriving DecidableEq

/-- The Python `round` applied to an integer-valued position: round half to
even.  `roundHalfEven q` is the integer nearest to `q`, ties to even. -/
def roundHalfEven (q : ℚ) : ℤ :=
  let f : ℤ := ⌊q⌋
  let r : ℚ := q - f
  if r < 1 / 2 then f
  else if 1 / 2 < r then f + 1
  else if f % 2 = 0 then f else f + 1

/-- Python `round(x, 1)`: round to a multiple of 0.1, ties to even digit. -/
def round1 (q : ℚ) : ℚ :=
  (roundHalfEven (q * 10) : ℚ) / 10

/-- Source `HybridRegulator._clamp_absolute_target`: relative clamp around the
setpoint, then absolute clamp, then round to 0.1 °C. -/
def clamp_absolute_target (cfg : HybridConfig) (setpoint_c target_c : ℚ) : ℚ :=
  let rel_min := setpoint_c - cfg.max_offset_c
  let rel_max := setpoint_c + cfg.max_offset_c
  let clamped := max rel_min (min rel_max target_c)
  let clamped := max cfg.min_target_c (min cfg.max_target_c clamped)
  round1 clamped

/-- Source `HybridRegulator._update_trend`: EMA of dT/dt in °C/s. -/
def update_trend (cfg : HybridConfig) (room_temp_c dt_s : ℚ) (state : HybridState) : ℚ :=
  match state.last_room_temp_c with
  | none => state.dTdt_ema_c_per_s
  | some prev =>
      if dt_s ≤ 0 then state.dTdt_ema_c_per_s
      else
        let raw := (room_temp_c - prev) / dt_s
        cfg.dTdt_alpha * raw + (1 - cfg.dTdt_alpha) * state.dTdt_ema_c_per_s

/-- Source `HybridRegulator._update_bias`: slow offset learning near steady state. -/
def update_bias (cfg : HybridConfig) (bias_c error_c dTdt_ema_c_per_s dt_s : ℚ) : ℚ :=
  let dTdt_c_per_min := dTdt_ema_c_per_s * 60
  if cfg.bias_deadband_c < |error_c| then bias_c
  else if cfg.bias_trend_max_c_per_min < |dTdt_c_per_min| then bias_c
  else
    let alpha := if 0 < cfg.bias_tau_s ∧ 0 < dt_s then min 1 (dt_s / cfg.bias_tau_s) else 0
    let desired_bias := bias_c + alpha * error_c
    let desired_bias := max cfg.bias_min_c (min cfg.bias_max_c desired_bias)
    let max_step := cfg.bias_rate_limit_c_per_h / 3600 * dt_s
    if bias_c + max_step < desired_bias then bias_c + max_step
    else if desired_bias < bias_c - max_step then bias_c - max_step
    else desired_bias

/-- Source `HybridRegulator._decide_mode`: mode-machine transitions.  The source
calls `time.monotonic()`; the current monotonic time is passed as `now`.  The
parameter `room_temp_c` is accepted but unused, exactly as in the source. -/
def decide_mode (cfg : HybridConfig) (setpoint_c room_temp_c error_c dTdt_ema_c_per_s : ℚ)
    (predicted_temp_c : Option ℚ) (state : HybridState) (now : ℚ) :
    HybridMode × String :=
  let drop_thr := cfg.trend_drop_threshold_c_per_min / 60
  let rise_thr := cfg.trend_rise_threshold_c_per_min / 60
  let predicted_overshoot : Bool :=
    match predicted_temp_c with
    | none => false
    | some p => decide (setpoint_c + cfg.overshoot_guard_c ≤ p)
  match state.mode with
  | .boost =>
      let elapsed_min := (now - state.mode_entered_monotonic_s) / 60
      if cfg.boost_max_minutes ≤ elapsed_min then (.hold, "boost_timeout")
      else if error_c ≤ cfg.boost_error_off_c ∧ drop_thr < dTdt_ema_c_per_s then
        (.hold, "boost_recovered")
      else (.boost, "boost_active")
  | .coast =>
      if cfg.coast_error_off_c ≤ error_c then (.hold, "coast_recovered")
      else (.coast, "coast_active")
  | .hold =>
      if error_c ≤ cfg.coast_error_on_c ∨ predicted_overshoot = true then (.coast, "coast_enter")
      else if cfg.boost_error_on_c ≤ error_c ∨ dTdt_ema_c_per_s ≤ drop_thr then
        (.boost, "boost_enter")
      else if |error_c| ≤ cfg.hold_deadband_c ∧ rise_thr ≤ dTdt_ema_c_per_s then
        (.hold, "hold_near_target_rising")
      else (.hold, "hold_normal")

/-- Target construction and state persistence of `compute_target` (source
lines 224–301), split out after the mode has been decided.  `dt`, `e` and
`dTdt_ema` are the values computed at the head of `compute_target`. -/
def finish_enabled (cfg : HybridConfig) (setpoint_c room_temp_c dt e dTdt_ema : ℚ)
    (state : HybridState) (predicted : Option ℚ) (mode : HybridMode) (mode_reason : String)
    (window_open_until now_mono : ℚ) : HybridResult :=
  let bias_c :=
    if mode = .hold ∧ 0 < dt then update_bias cfg state.bias_c e dTdt_ema dt
    else state.bias_c
  let base := setpoint_c + bias_c
  let p_term := cfg.kp * e
  let built : ℚ × ℚ :=  -- (raw_target, i_small_next)
    match mode with
    | .boost => (max cfg.boost_target_c (base + p_term), state.i_small_c)
    | .coast => (cfg.coast_target_c, state.i_small_c)
    | .hold =>
        let tentative_i :=
          if 0 < cfg.ki_small ∧ 0 < dt then
            max cfg.i_small_min_c (min cfg.i_small_max_c (state.i_small_c + e * cfg.ki_small * dt))
          else state.i_small_c
        let raw_target := base + p_term + tentative_i
        let clamped := clamp_absolute_target cfg setpoint_c raw_target
        if clamped ≠ raw_target then (clamped, state.i_small_c)
        else (raw_target, tentative_i)
  let raw_target := built.1
  let i_small_next := built.2
  let target := clamp_absolute_target cfg setpoint_c raw_target
  let mode_entered :=
    if mode ≠ state.mode then now_mono else state.mode_entered_monotonic_s
  let new_state : HybridState :=
    { mode := mode
      bias_c := bias_c
      i_small_c := i_small_next
      dTdt_ema_c_per_s := dTdt_ema
      last_room_temp_c := some room_temp_c
      mode_entered_monotonic_s := mode_entered
      window_open_until_monotonic_s := window_open_until }
  { target_c := target
    mode := new_state.mode
    error_c := e
    p_term_c := p_term
    i_small_c := new_state.i_small_c
    bias_c := new_state.bias_c
    dTdt_ema_c_per_s := new_state.dTdt_ema_c_per_s
    predicted_temp_c := predicted
    new_state := new_state
    dbg_raw_target := some raw_target
    dbg_mode_reason := some mode_reason }

/-- Source `HybridRegulator.compute_target`: one regulation tick.  `now_mono` stands
for `time.monotonic()` (called once in `compute_target` and once in
`_decide_mode`; both return the same instant in the model). -/
def compute_target (cfg : HybridConfig) (setpoint_c room_temp_c time_delta_s : ℚ)
    (state : HybridState) (heating_enabled : Bool) (now_mono : ℚ) : HybridResult :=
  let dt := max 0 time_delta_s
  let e := setpoint_c - room_temp_c
  let dTdt_ema := update_trend cfg room_temp_c dt state
  if heating_enabled = false then
    let new_state : HybridState :=
      { mode := .coast
        bias_c := state.bias_c
        i_small_c := state.i_small_c
        dTdt_ema_c_per_s := dTdt_ema
        last_room_temp_c := some room_temp_c
        mode_entered_monotonic_s := state.mode_entered_monotonic_s
        window_open_until_monotonic_s := state.window_open_until_monotonic_s }
    { target_c := clamp_absolute_target cfg setpoint_c cfg.coast_target_c
      mode := new_state.mode
      error_c := e
      p_term_c := 0
      i_small_c := new_state.i_small_c
      bias_c := new_state.bias_c
      dTdt_ema_c_per_s := new_state.dTdt_ema_c_per_s
      predicted_temp_c := none
      new_state := new_state
      dbg_reason := some ("heating_disabled") }
  else
    -- Window-open detection / latch (forces COAST)
    let latch : ℚ × Bool × Option HybridMode × Option String :=
      if cfg.window_open_enabled then
        if now_mono < state.window_open_until_monotonic_s then
          (state.window_open_until_monotonic_s, false, some .coast, some ("window_open_active"))
        else
          let window_thr := cfg.window_open_drop_threshold_c_per_min / 60
          if state.last_room_temp_c ≠ none ∧ 0 < dt ∧ dTdt_ema ≤ window_thr then
            (now_mono + cfg.window_open_hold_minutes * 60, true, some .coast,
              some ("window_open_detected"))
          else (state.window_open_until_monotonic_s, false, none, none)
      else (state.window_open_until_monotonic_s, false, none, none)
    let window_open_until := latch.1
    let forced_mode := latch.2.2.1
    let forced_reason := latch.2.2.2
    let predicted : Option ℚ :=
      if 0 < cfg.predict_horizon_s then some (room_temp_c + dTdt_ema * cfg.predict_horizon_s)
      else none
    let decided :=
      match forced_mode, forced_reason with
      | some m, some r => (m, r)
      | _, _ => decide_mode cfg setpoint_c room_temp_c e dTdt_ema predicted state now_mono
    finish_enabled cfg setpoint_c room_temp_c dt e dTdt_ema state predicted decided.1 decided.2
      window_open_until now_mono

end HybridRegulation

namespace Climate

open HybridRegulation

/-- Source `HVACMode` values supported by the proxy entity (`HEAT`/`OFF`). -/
inductive HVACMode where
  | heat
  | off
deriving DecidableEq

/-- Command-hygiene constants from `climate.py` / `parameters.py`. -/
def MIN_SEND_DELTA_C : ℚ := 2 / 10

/-- Source `MAX_STEP_UP_C` from `climate.py`. -/
def MAX_STEP_UP_C : ℚ := 1 / 2

/-- Source `FAST_RECOVERY_MIN_INTERVAL_S` from `climate.py`. -/
def FAST_RECOVERY_MIN_INTERVAL_S : ℚ := 20

/-- Source `FAST_RECOVERY_MAX_STEP_UP_C` from `climate.py`. -/
def FAST_RECOVERY_MAX_STEP_UP_C : ℚ := 2

/-- Source `FAST_RECOVERY_ERROR_C` from `climate.py`. -/
def FAST_RECOVERY_ERROR_C : ℚ := 3 / 2

/-- Source `FAST_RECOVERY_TARGET_GAP_C` from `climate.py`. -/
def FAST_RECOVERY_TARGET_GAP_C : ℚ := 3

/-- Source `FROSTISH_C` from `climate.py`. -/
def FROSTISH_C : ℚ := 15 / 2

/-- Source `FROST_EXIT_JUMP_GAP_C` from `climate.py`. -/
def FROST_EXIT_JUMP_GAP_C : ℚ := 8

/-- Source `FROST_PROTECT_C` from `parameters.py`. -/
def FROST_PROTECT_C : ℚ := 5

/-- Source `RATE_LIMIT_DECREASE_EPS_C` from `parameters.py`. -/
def RATE_LIMIT_DECREASE_EPS_C : ℚ := 1 / 20

/-- The fields of `parameters.RegulationConfig` consumed by
`TadoXProxyClimate._async_regulation_cycle` (the PID-only fields of that
dataclass are not used by the hybrid climate entity). -/
structure RegulationConfig where
  min_target_c : ℚ := 5
  max_target_c : ℚ := 25
  min_command_interval_s : ℚ := 300
deriving DecidableEq

/-- The mutable fields of `TadoXProxyClimate` read or written by
`_async_regulation_cycle` and its helpers (timer subscription handles are
side-effect plumbing and are not modelled). -/
structure ClimateState where
  hvac_mode : HVACMode
  target_temp : ℚ
  hybrid_state : HybridState
  last_regulation_ts : ℚ
  last_command_sent_ts : ℚ
  last_regulation_reason : String
  last_regulation_result : Option HybridResult
  last_current_tado_setpoint_c : Option ℚ
  last_desired_target_c : Option ℚ
  last_command_target_c : Option ℚ
  last_command_step_limited : Bool
  last_command_step_up_limit_c : Option ℚ
  last_command_diff_c : Option ℚ
  last_sent_target_c : Option ℚ
  last_sent_reason : Option String
  last_sent_mono : Option ℚ
  effective_min_interval_s : ℚ
  effective_step_up_c : ℚ
  fast_recovery_active : Bool
  fast_recovery_reason : Option String
  window_open_enabled : Bool
  window_sensor_entity_id : Option String
  window_open_delay_s : ℚ
  window_close_delay_s : ℚ
  window_open_active : Bool
  window_forced : Bool
  window_forced_reason : Option String
  window_open_pending : Bool
  window_open_delay_remaining_s : ℚ
  window_close_hold_remaining_s : ℚ
  window_open_deadline_mono : Option ℚ
  window_close_deadline_mono : Option ℚ
  last_window_forced : Bool
deriving DecidableEq

/-- Result of `TadoXProxyClimate._compute_window_state` plus the open-delay
deadline it may initialise in place (line "if self._window_open_deadline_mono
is None: self._window_open_deadline_mono = now_m + delay_s"). -/
structure WindowComputed where
  forced : Bool
  reason : Option String
  pending : Bool
  open_remaining_s : ℚ
  close_remaining_s : ℚ
  open_deadline_mono : Option ℚ
deriving DecidableEq

/-- Source `TadoXProxyClimate._compute_window_state`. -/
def compute_window_state (self : ClimateState) (now_m : ℚ) : WindowComputed :=
  if self.window_open_enabled = false ∨ self.window_sensor_entity_id = none then
    ⟨false, none, false, 0, 0, self.window_open_deadline_mono⟩
  else if self.window_open_active then
    let delay_s := max 0 self.window_open_delay_s
    if delay_s ≤ 0 then ⟨true, some ("window_open_forced"), false, 0, 0, self.window_open_deadline_mono⟩
    else
      let deadline :=
        match self.window_open_deadline_mono with
        | none => now_m + delay_s
        | some d => d
      let rem := max 0 (deadline - now_m)
      if rem ≤ 0 then ⟨true, some ("window_open_forced"), false, 0, 0, some deadline⟩
      else ⟨false, some ("window_open_pending"), true, rem, 0, some deadline⟩
  else
    let hold_s := max 0 self.window_close_delay_s
    if hold_s ≤ 0 ∨ self.window_close_deadline_mono = none then
      ⟨false, none, false, 0, 0, self.window_open_deadline_mono⟩
    else
      let rem := max 0 (self.window_close_deadline_mono.getD 0 - now_m)
      if rem ≤ 0 then ⟨false, none, false, 0, 0, self.window_open_deadline_mono⟩
      else ⟨true, some ("window_close_hold"), false, 0, rem, self.window_open_deadline_mono⟩

/-- Source `TadoXProxyClimate._update_window_diagnostics`. -/
def update_window_diagnostics (self : ClimateState) (now_m : ℚ) : ClimateState :=
  let w := compute_window_state self now_m
  { self with
    window_forced := w.forced
    window_forced_reason := w.reason
    window_open_pending := w.pending
    window_open_delay_remaining_s := w.open_remaining_s
    window_close_hold_remaining_s := w.close_remaining_s
    window_open_deadline_mono := w.open_deadline_mono }

/-- The external `climate.set_temperature` service call.  `write_ok = false`
models the call raising (service/network error). -/
def attempt_service_call (write_ok : Bool) : Except String Unit :=
  if write_ok then Except.ok () else Except.error ("ServiceError")

/-- Source `TadoXProxyClimate._async_send_to_tado`: the write attempt; any raised
error is caught and logged (`_LOGGER.error`), so the function always returns
normally.  The returned value is the logged message, if any. -/
def async_send_to_tado (source_entity : Option String) (write_ok : Bool) (_target_c : ℚ) :
    Option String :=
  match source_entity with
  | none => none
  | some _ =>
      match attempt_service_call write_ok with
      | Except.ok _ => none
      | Except.error err => some ("Failed to send command to Tado: " ++ err)

/-- Outcome of the command-policy selection block (`_async_regulation_cycle`,
"Command policy selection"). -/
structure CommandPolicy where
  fast_recovery_active : Bool
  fast_recovery_reason : Option String
  effective_min_interval_s : ℚ
  effective_step_up_c : ℚ
deriving DecidableEq

/-- Command-policy selection (`_async_regulation_cycle` lines 569–604).  The
Python code renders the numeric payload of the reason with `"%.2f"`; the model
keeps the exact rational in the string via `toString`. -/
def select_command_policy (cfg : RegulationConfig) (window_forced : Bool)
    (hvac_mode : HVACMode) (is_boost : Bool) (room_error_c target_gap_c : ℚ) :
    CommandPolicy :=
  let fast : Bool × Option String :=
    if window_forced = false ∧ hvac_mode ≠ .off then
      if is_boost then (true, some ("boost"))
      else if FAST_RECOVERY_ERROR_C ≤ room_error_c then
        (true, some ("room_error(" ++ toString room_error_c ++ ")"))
      else if FAST_RECOVERY_TARGET_GAP_C ≤ target_gap_c then
        (true, some ("target_gap(" ++ toString target_gap_c ++ ")"))
      else (false, none)
    else (false, none)
  { fast_recovery_active := fast.1
    fast_recovery_reason := fast.2
    effective_min_interval_s :=
      if fast.1 then min (cfg.min_command_interval_s) FAST_RECOVERY_MIN_INTERVAL_S
      else cfg.min_command_interval_s
    effective_step_up_c :=
      if fast.1 then max MAX_STEP_UP_C FAST_RECOVERY_MAX_STEP_UP_C
      else MAX_STEP_UP_C }

/-- The "resume jump" gate (`_async_regulation_cycle` lines 606–612). -/
def resume_jump_allowed (resume_from_window : Bool) (tado_setpoint : Option ℚ)
    (desired_target_c : ℚ) : Bool :=
  match tado_setpoint with
  | none => false
  | some t =>
      resume_from_window && decide (t ≤ FROSTISH_C)
        && decide (FROST_EXIT_JUMP_GAP_C ≤ desired_target_c - t)

/-- Command-target construction (`_async_regulation_cycle` lines 614–640):
returns `(command_target_c, step_limited, step_up_limit_c)`. -/
def build_command_target (desired_target_c : ℚ) (tado_setpoint : Option ℚ)
    (resume_jump : Bool) (effective_step_up_c : ℚ) : ℚ × Bool × Option ℚ :=
  match tado_setpoint with
  | none => (round1 desired_target_c, false, none)
  | some current_sp =>
      if current_sp + 1 / 20 < desired_target_c then
        if resume_jump then (round1 desired_target_c, false, none)
        else
          let stepped := min desired_target_c (current_sp + effective_step_up_c)
          (round1 (round1 stepped), decide (stepped ≠ desired_target_c), some effective_step_up_c)
      else (round1 desired_target_c, false, none)

/-- Send decision (`_async_regulation_cycle` lines 654–695), including the
window-forced urgent-decrease and resume-jump overrides. -/
def decide_send (command_target_c : ℚ) (tado_setpoint : Option ℚ)
    (window_forced resume_jump : Bool) (effective_min_interval_s : ℚ)
    (now_wall last_command_sent_ts : ℚ) : Bool × String :=
  let base : Bool × String :=
    match tado_setpoint with
    | none => (true, "init_unknown_current_setpoint")
    | some current_sp =>
        let diff := |command_target_c - current_sp|
        let time_since_last_send := now_wall - last_command_sent_ts
        let is_rate_limited := time_since_last_send < effective_min_interval_s
        if diff < MIN_SEND_DELTA_C then (false, "min_delta_guard(0.2C)")
        else if is_rate_limited then
          if command_target_c < current_sp - RATE_LIMIT_DECREASE_EPS_C then
            (true, "urgent_decrease")
          else
            let remaining : ℤ := ⌊max 0 (effective_min_interval_s - time_since_last_send)⌋
            (false, "rate_limited(" ++ toString remaining ++ "s)")
        else (true, "normal_update")
  let after_window : Bool × String :=
    match tado_setpoint with
    | none => base
    | some current_sp =>
        if window_forced ∧ command_target_c < current_sp - RATE_LIMIT_DECREASE_EPS_C then
          (true, "window_forced_urgent_decrease")
        else base
  match tado_setpoint with
  | none => after_window
  | some current_sp =>
      if resume_jump ∧ current_sp + 1 / 20 < command_target_c then
        (true, "window_resume_jump")
      else after_window

/-- Reason decoration (`_async_regulation_cycle` lines 697–705).  Numeric
rendering uses `toString` on the exact rational instead of Python float
formatting. -/
def decorate_reason (reason : String) (step_limited : Bool) (step_up_limit_c : Option ℚ)
    (window_reason : Option String) (fast_recovery_active : Bool)
    (fast_recovery_reason : Option String) (resume_from_window : Bool) : String :=
  let r :=
    if step_limited ∧ step_up_limit_c ≠ none then
      reason ++ "|step_up_limited(" ++ toString (step_up_limit_c.getD 0) ++ "C)"
    else reason
  let r := match window_reason with | some w => r ++ "|" ++ w | none => r
  let r :=
    if fast_recovery_active then
      r ++ "|fast_recovery(" ++ fast_recovery_reason.getD ("") ++ ")"
    else r
  if resume_from_window then r ++ "|resume_from_window" else r

/-- Everything a regulation cycle produces: the updated entity state plus the
cycle-local values the source exposes through telemetry and the send path. -/
structure CycleOutput where
  state : ClimateState
  should_send : Bool
  sent_value : Option ℚ
  send_log : Option String
  reason : String
  desired_target : Option ℚ
  command_target : Option ℚ
  tado_setpoint : Option ℚ
  window_forced : Bool
  resume_jump_allowed : Bool
deriving DecidableEq

/-- The non-window-forced tail of `_async_regulation_cycle` (source lines
549–727): regulator call, command policy, send decision and state updates.
`self` is the entity state after the regulation-timestamp and
window-diagnostics updates; `window_forced` is false on this path but the
source conditions still mention the variable and are kept as written. -/
def run_cycle_main (cfg : RegulationConfig) (hcfg : HybridConfig)
    (self : ClimateState) (room_temp : ℚ) (tado_setpoint : Option ℚ)
    (effective_setpoint dt_s : ℚ) (window_forced : Bool) (window_reason : Option String)
    (resume_from_window : Bool) (source_entity : Option String) (write_ok : Bool)
    (now_wall now_mono : ℚ) : CycleOutput :=
  let reg_result := HybridRegulation.compute_target hcfg effective_setpoint room_temp dt_s
    self.hybrid_state (decide (self.hvac_mode ≠ .off)) now_mono
  let self :=
    { self with hybrid_state := reg_result.new_state
                last_regulation_result := some reg_result }
  let desired_target_c :=
    round1 (max cfg.min_target_c (min cfg.max_target_c reg_result.target_c))
  -- Command policy selection
  let room_error_c := effective_setpoint - room_temp
  let target_gap_c := match tado_setpoint with | some t => desired_target_c - t | none => 0
  let is_boost := decide (reg_result.mode = .boost)
  let policy :=
    select_command_policy cfg window_forced self.hvac_mode is_boost room_error_c target_gap_c
  let self :=
    { self with fast_recovery_active := policy.fast_recovery_active
                fast_recovery_reason := policy.fast_recovery_reason
                effective_min_interval_s := policy.effective_min_interval_s
                effective_step_up_c := policy.effective_step_up_c }
  let resume_jump := resume_jump_allowed resume_from_window tado_setpoint desired_target_c
  let built := build_command_target desired_target_c tado_setpoint resume_jump
    policy.effective_step_up_c
  let command_target_c := built.1
  let step_limited := built.2.1
  let step_up_limit_c := built.2.2
  -- Diagnostics snapshot
  let self :=
    { self with last_current_tado_setpoint_c := tado_setpoint
                last_desired_target_c := some desired_target_c
                last_command_target_c := some command_target_c
                last_command_step_limited := step_limited
                last_command_step_up_limit_c := step_up_limit_c
                last_command_diff_c :=
                  match tado_setpoint with
                  | some t => some |command_target_c - t|
                  | none => none }
  -- Decide whether to send
  let dec := decide_send command_target_c tado_setpoint window_forced resume_jump
    policy.effective_min_interval_s now_wall self.last_command_sent_ts
  let should_send := dec.1
  let reason := decorate_reason dec.2 step_limited step_up_limit_c window_reason
    policy.fast_recovery_active policy.fast_recovery_reason resume_from_window
  -- Send command (the logged error of the write attempt, if any; the exception is
  -- swallowed inside `_async_send_to_tado`).
  let send_log :=
    if should_send then async_send_to_tado source_entity write_ok command_target_c
    else none
  let self :=
    if should_send then
      { self with last_command_sent_ts := now_wall
                  last_regulation_reason := "sent(" ++ reason ++ ")"
                  last_sent_target_c := some command_target_c
                  last_sent_reason := some reason
                  last_sent_mono := some now_mono }
    else { self with last_regulation_reason := reason }
  -- Fast-recovery tick scheduling is a timer side effect, not modelled.
  let self := { self with last_window_forced := window_forced }
  { state := self, should_send := should_send
    sent_value := if should_send then some command_target_c else none
    send_log := send_log, reason := reason
    desired_target := some desired_target_c, command_target := some command_target_c
    tado_setpoint := tado_setpoint, window_forced := window_forced
    resume_jump_allowed := resume_jump }

/-- Source `TadoXProxyClimate._async_regulation_cycle`.  An uncaught Python exception
is modelled as `Except.error (message, entity state at the raise point)`.  The
window-forced branch constructs `HybridResult` without the required
`i_small_c`, `bias_c` and `dTdt_ema_c_per_s` arguments, so the dataclass
`__init__` raises `TypeError` there.  `now_wall` models `time.time()` and
`now_mono` models `time.monotonic()`. -/
def run_regulation_cycle (cfg : RegulationConfig) (hcfg : HybridConfig)
    (self : ClimateState)
    (room_temp_in src_internal_temp src_setpoint coord_internal_temp coord_setpoint : Option ℚ)
    (source_entity : Option String) (write_ok : Bool) (now_wall now_mono : ℚ) :
    Except (String × ClimateState) CycleOutput :=
  match room_temp_in with
  | none =>
      let self := { self with last_regulation_reason := "waiting_for_sensors" }
      Except.ok
        { state := self, should_send := false, sent_value := none, send_log := none
          reason := "waiting_for_sensors", desired_target := none, command_target := none
          tado_setpoint := none, window_forced := false, resume_jump_allowed := false }
  | some room_temp =>
      -- "Ground truth" reads with coordinator fallback; the internal
      -- temperature is resolved but unused inside the cycle.
      let _tado_internal : Option ℚ :=
        match src_internal_temp with | some v => some v | none => coord_internal_temp
      let tado_setpoint : Option ℚ :=
        match src_setpoint with | some v => some v | none => coord_setpoint
      let dt_s := if 0 < self.last_regulation_ts then now_wall - self.last_regulation_ts else 0
      let self := { self with last_regulation_ts := now_wall }
      let effective_setpoint := if self.hvac_mode = .off then FROST_PROTECT_C else self.target_temp
      let self := update_window_diagnostics self now_mono
      let window_forced := self.window_forced
      let window_reason := self.window_forced_reason
      let resume_from_window := self.last_window_forced && !window_forced
      if window_forced then
        -- climate.py lines 536–547: `HybridResult(...)` omits the required
        -- dataclass fields `i_small_c`, `bias_c`, `dTdt_ema_c_per_s`.
        Except.error
          ("TypeError: HybridResult.__init__ missing i_small_c, bias_c, dTdt_ema_c_per_s", self)
      else
        Except.ok (run_cycle_main cfg hcfg self room_temp tado_setpoint effective_setpoint dt_s
          window_forced window_reason resume_from_window source_entity write_ok now_wall now_mono)

end Climate

namespace Regulation

/-- A Python float: finite values are exact rationals; `nan`, `inf` and
`ninf` model the non-finite values `PidRegulator.step` guards against. -/
inductive PyFloat where
  | fin : ℚ → PyFloat
  | nan
  | inf
  | ninf
deriving DecidableEq

/-- The IEEE `<` comparison (any comparison with NaN is false). -/
def pyLt : PyFloat → PyFloat → Bool
  | .fin a, .fin b => decide (a < b)
  | .nan, _ => false
  | _, .nan => false
  | .ninf, .ninf => false
  | .ninf, _ => true
  | _, .ninf => false
  | .inf, _ => false
  | _, .inf => true

/-- Python `min(a, b)`: returns `b` if `b < a` else `a`. -/
def pyMin (a b : PyFloat) : PyFloat := if pyLt b a then b else a

/-- Python `max(a, b)`: returns `b` if `a < b` else `a`. -/
def pyMax (a b : PyFloat) : PyFloat := if pyLt a b then b else a

/-- Source `_clamp(value, vmin, vmax) = max(vmin, min(vmax, value))` evaluated with
Python `min`/`max` semantics (relevant when `value` is non-finite). -/
def pyClamp (value vmin vmax : PyFloat) : PyFloat := pyMax vmin (pyMin vmax value)

/-- Source `_is_finite(x) = not (math.isnan(x) or math.isinf(x))`. -/
def is_finite : PyFloat → Bool
  | .fin _ => true
  | _ => false

/-- The rational carried by a finite `PyFloat` (0 for non-finite values; only
applied under an `is_finite` guard). -/
def PyFloat.toRat : PyFloat → ℚ
  | .fin q => q
  | _ => 0

/-- Rational-valued `_clamp` used on the finite path. -/
def clampQ (value vmin vmax : ℚ) : ℚ := max vmin (min vmax value)

/-- Source `@dataclass(frozen=True) class PidTuning` (defaults from `regulation.py`). -/
structure PidTuning where
  kp : ℚ := 12 / 10
  ki : ℚ := 1 / 100
  kd : ℚ := 8
deriving DecidableEq

/-- Source `@dataclass(frozen=True) class RegulationConfig` from `regulation.py`. -/
structure RegulationConfig where
  tuning : PidTuning := {}
  deadband_c : ℚ := 1 / 10
  max_delta_c : ℚ := 5
  min_target_c : ℚ := 5
  max_target_c : ℚ := 25
  min_command_interval_s : ℚ := 300
  min_on_s : ℚ := 300
  min_off_s : ℚ := 300
  heat_on_threshold_delta_c : ℚ := 2 / 10
  heat_off_threshold_delta_c : ℚ := 1 / 20
  integral_term_min_c : ℚ := -2
  integral_term_max_c : ℚ := 2
  derivative_ema_alpha : ℚ := 35 / 100
  overshoot_lookahead_s : ℚ := 240
  overshoot_margin_c : ℚ := 1 / 20
  overshoot_brake_strength : ℚ := 3 / 4
deriving DecidableEq

/-- Source `@dataclass class PidState` (mutable controller state). -/
structure PidState where
  integral_term_c : ℚ := 0
  last_temp_c : Option ℚ := none
  last_ts_s : Option ℚ := none
  dtemp_dt_c_per_s_ema : ℚ := 0
  has_dtemp_ema : Bool := false
  last_output_delta_c : ℚ := 0
  last_target_c : Option ℚ := none
  last_sent_ts_s : Option ℚ := none
  heating_on : Bool := false
  heating_state_change_ts_s : Option ℚ := none
deriving DecidableEq

/-- Source `@dataclass(frozen=True) class RegulationDecision`. -/
structure RegulationDecision where
  target_c : PyFloat
  output_delta_c : ℚ
  p_c : ℚ
  i_c : ℚ
  d_c : ℚ
  error_c : ℚ
  reason : String
  rate_limited : Bool
  deadband_active : Bool
  heating_on : Bool
  dtemp_dt_c_per_s : ℚ
deriving DecidableEq

/-- Source `PidRegulator._set_heating_state`. -/
def set_heating_state (st : PidState) (heating_on : Bool) (now_ts_s : ℚ) : PidState :=
  if st.heating_on ≠ heating_on then
    { st with heating_on := heating_on, heating_state_change_ts_s := some now_ts_s }
  else st

/-- Source `PidRegulator._apply_min_on_off`: heating latch with minimum on/off
times.  Returns the (possibly held) output delta, the latch reason and the
updated state. -/
def apply_min_on_off (cfg : RegulationConfig) (st : PidState)
    (output_delta_c now_ts_s : ℚ) : ℚ × Option String × PidState :=
  let st :=
    match st.heating_state_change_ts_s with
    | none => { st with heating_state_change_ts_s := some now_ts_s }
    | some _ => st
  let desired_on :=
    if st.heating_on then
      if output_delta_c ≤ cfg.heat_off_threshold_delta_c then false else st.heating_on
    else
      if cfg.heat_on_threshold_delta_c ≤ output_delta_c then true else st.heating_on
  let elapsed := now_ts_s - st.heating_state_change_ts_s.getD now_ts_s
  if st.heating_on then
    if desired_on = false ∧ elapsed < cfg.min_on_s then
      (max output_delta_c cfg.heat_off_threshold_delta_c, some ("min_on_hold"), st)
    else
      let st := if desired_on ≠ st.heating_on then set_heating_state st desired_on now_ts_s else st
      (output_delta_c, none, st)
  else
    if desired_on = true ∧ elapsed < cfg.min_off_s then
      (min output_delta_c 0, some ("min_off_hold"), st)
    else
      let st := if desired_on ≠ st.heating_on then set_heating_state st desired_on now_ts_s else st
      (output_delta_c, none, st)

/-- Source `PidRegulator._update_time_and_temp`. -/
def update_time_and_temp (st : PidState) (measured_temp_c now_ts_s : ℚ) : PidState :=
  { st with last_temp_c := some measured_temp_c, last_ts_s := some now_ts_s }

/-- Source `PidRegulator.step` restricted to finite inputs (the body after the
`_is_finite` guard), with explicit state passing. -/
def step_finite (cfg : RegulationConfig) (st : PidState)
    (user_setpoint_c measured_temp_c now_ts_s : ℚ)
    (window_open force_off : Bool) : RegulationDecision × PidState :=
  let tuning := cfg.tuning
  let error_c := user_setpoint_c - measured_temp_c
  let dt_s :=
    match st.last_ts_s, st.last_temp_c with
    | some ts, some _ => max 1 (now_ts_s - ts)
    | _, _ => cfg.min_command_interval_s
  let dtemp_dt :=
    match st.last_ts_s, st.last_temp_c with
    | some _, some prev => (measured_temp_c - prev) / dt_s
    | _, _ => 0
  let alpha := clampQ cfg.derivative_ema_alpha 0 1
  let st :=
    if alpha ≤ 0 then { st with dtemp_dt_c_per_s_ema := dtemp_dt, has_dtemp_ema := true }
    else if st.has_dtemp_ema = false then
      { st with dtemp_dt_c_per_s_ema := dtemp_dt, has_dtemp_ema := true }
    else
      { st with dtemp_dt_c_per_s_ema := alpha * dtemp_dt + (1 - alpha) * st.dtemp_dt_c_per_s_ema }
  let dtemp_dt_smooth := if st.has_dtemp_ema then st.dtemp_dt_c_per_s_ema else dtemp_dt
  if force_off then
    let target := cfg.min_target_c
    let st := { st with last_target_c := some target, last_output_delta_c := 0 }
    let st := update_time_and_temp st measured_temp_c now_ts_s
    let st := set_heating_state st false now_ts_s
    ({ target_c := .fin target, output_delta_c := 0, p_c := 0, i_c := st.integral_term_c
       d_c := 0, error_c := error_c, reason := "force_off", rate_limited := false
       deadband_active := false, heating_on := st.heating_on
       dtemp_dt_c_per_s := dtemp_dt_smooth }, st)
  else if window_open then
    let st := { st with integral_term_c := st.integral_term_c * (9 / 10) }
    let target := clampQ user_setpoint_c cfg.min_target_c cfg.max_target_c
    let st := { st with last_target_c := some target, last_output_delta_c := 0 }
    let st := update_time_and_temp st measured_temp_c now_ts_s
    let st := set_heating_state st false now_ts_s
    ({ target_c := .fin target, output_delta_c := 0, p_c := 0, i_c := st.integral_term_c
       d_c := 0, error_c := error_c, reason := "window_open_hold", rate_limited := false
       deadband_active := true, heating_on := st.heating_on
       dtemp_dt_c_per_s := dtemp_dt_smooth }, st)
  else
    let pid : ℚ × ℚ × ℚ × String × Bool × PidState :=
      if |error_c| ≤ cfg.deadband_c then
        (0, 0, 0, "deadband", true, { st with integral_term_c := st.integral_term_c * (92 / 100) })
      else
        let p_c := tuning.kp * error_c
        let new_integral := clampQ (st.integral_term_c + tuning.ki * error_c * dt_s)
          cfg.integral_term_min_c cfg.integral_term_max_c
        let st := { st with integral_term_c := new_integral }
        let d_c := -tuning.kd * dtemp_dt_smooth
        let output := clampQ (p_c + st.integral_term_c + d_c) (-cfg.max_delta_c) cfg.max_delta_c
        if 0 < output ∧ 0 < dtemp_dt_smooth ∧
            user_setpoint_c + cfg.overshoot_margin_c ≤
              measured_temp_c + dtemp_dt_smooth * cfg.overshoot_lookahead_s then
          let brake := clampQ cfg.overshoot_brake_strength 0 1
          (p_c, d_c, output * (1 - brake), "pid_overshoot_brake", false, st)
        else (p_c, d_c, output, "pid", false, st)
    let p_c := pid.1
    let d_c := pid.2.1
    let output0 := pid.2.2.1
    let reason0 := pid.2.2.2.1
    let deadband_active := pid.2.2.2.2.1
    let st := pid.2.2.2.2.2
    let latched := apply_min_on_off cfg st output0 now_ts_s
    let output1 := latched.1
    let reason1 := match latched.2.1 with | some r => r | none => reason0
    let st := latched.2.2
    let target0 := clampQ (user_setpoint_c + output1) cfg.min_target_c cfg.max_target_c
    let rl : ℚ × ℚ × Bool × String :=
      match st.last_sent_ts_s, st.last_target_c with
      | some sent_ts, some last_target =>
          if now_ts_s - sent_ts < cfg.min_command_interval_s then
            (last_target, last_target - user_setpoint_c, true,
              "rate_limited(" ++ toString (⌊cfg.min_command_interval_s⌋ : ℤ) ++ "s)")
          else (target0, output1, false, reason1)
      | _, _ => (target0, output1, false, reason1)
    let target := rl.1
    let output := rl.2.1
    let rate_limited := rl.2.2.1
    let reason := rl.2.2.2
    let st := { st with last_output_delta_c := output, last_target_c := some target }
    let st := update_time_and_temp st measured_temp_c now_ts_s
    let st := if rate_limited = false then { st with last_sent_ts_s := some now_ts_s } else st
    ({ target_c := .fin target, output_delta_c := output, p_c := p_c, i_c := st.integral_term_c
       d_c := d_c, error_c := error_c, reason := reason, rate_limited := rate_limited
       deadband_active := deadband_active, heating_on := st.heating_on
       dtemp_dt_c_per_s := dtemp_dt_smooth }, st)

/-- Source `PidRegulator.step`: the `_is_finite` guard returns the
`invalid_input_fallback` decision without touching the state; otherwise the
finite body runs.  Returns the decision together with the updated state. -/
def step (cfg : RegulationConfig) (st : PidState)
    (user_setpoint_c measured_temp_c : PyFloat) (now_ts_s : ℚ)
    (window_open force_off : Bool) : RegulationDecision × PidState :=
  if is_finite user_setpoint_c = false ∨ is_finite measured_temp_c = false then
    let fallback : PyFloat :=
      match st.last_target_c with
      | some t => .fin t
      | none => pyClamp user_setpoint_c (.fin cfg.min_target_c) (.fin cfg.max_target_c)
    ({ target_c := fallback, output_delta_c := 0, p_c := 0, i_c := st.integral_term_c
       d_c := 0, error_c := 0, reason := "invalid_input_fallback", rate_limited := true
       deadband_active := false, heating_on := st.heating_on
       dtemp_dt_c_per_s := if st.has_dtemp_ema then st.dtemp_dt_c_per_s_ema else 0 }, st)
  else
    step_finite cfg st user_setpoint_c.toRat measured_temp_c.toRat now_ts_s window_open force_off

end Regulation

open HybridRegulation Climate Regulation

/-! ### Concrete fixtures used by witnesses and counterexamples -/

/-- The default `HybridConfig()` (all source defaults). -/
def hcfg_default : HybridConfig := {}

/-- The default `HybridState()` with `mode_entered_monotonic_s = 0`. -/
def hstate_default : HybridState := {}

/-- The default `parameters.RegulationConfig()` fields used by the cycle. -/
def ccfg_default : Climate.RegulationConfig := {}

/-- A freshly initialised `TadoXProxyClimate` in HEAT mode at setpoint 20 °C,
window handling disabled (the `__init__` defaults). -/
def cst_base : ClimateState :=
  { hvac_mode := .heat
    target_temp := 20
    hybrid_state := hstate_default
    last_regulation_ts := 0
    last_command_sent_ts := 0
    last_regulation_reason := "startup"
    last_regulation_result := none
    last_current_tado_setpoint_c := none
    last_desired_target_c := none
    last_command_target_c := none
    last_command_step_limited := false
    last_command_step_up_limit_c := none
    last_command_diff_c := none
    last_sent_target_c := none
    last_sent_reason := none
    last_sent_mono := none
    effective_min_interval_s := 300
    effective_step_up_c := 1 / 2
    fast_recovery_active := false
    fast_recovery_reason := none
    window_open_enabled := false
    window_sensor_entity_id := none
    window_open_delay_s := 0
    window_close_delay_s := 0
    window_open_active := false
    window_forced := false
    window_forced_reason := none
    window_open_pending := false
    window_open_delay_remaining_s := 0
    window_close_hold_remaining_s := 0
    window_open_deadline_mono := none
    window_close_deadline_mono := none
    last_window_forced := false }

/-- Source `cst_base` with an open window sensor and no open delay: the window
override is FORCED_OPEN on the next cycle. -/
def cst_window_forced : ClimateState :=
  { cst_base with
    window_open_enabled := true
    window_sensor_entity_id := some ("binary_sensor.window")
    window_open_active := true }

/-- Source `cst_base` one cycle after a window-forced period ended (frost at the
actuator), about to take the one-time resume jump. -/
def cst_resume : ClimateState :=
  { cst_base with last_window_forced := true, last_command_sent_ts := 995 }

/-- Source `cst_base` whose last command was sent exactly at wall time 1000 — a
cycle at `now_wall = 1000` has zero elapsed time since the last send. -/
def cst_rate_limited : ClimateState :=
  { cst_base with last_command_sent_ts := 1000 }

/-- The default `regulation.RegulationConfig()`. -/
def pcfg_default : Regulation.RegulationConfig := {}

/-- The default `regulation.PidState()`. -/
def pst_default : PidState := {}

/-! ### Extractors over cycle results -/

/-- Source `should_send` of a completed cycle (`false` if the cycle raised). -/
def cycle_should_send : Except (String × ClimateState) CycleOutput → Bool
  | .ok o => o.should_send
  | .error _ => false

/-- The resolved actuator setpoint of a completed cycle. -/
def cycle_tado_setpoint : Except (String × ClimateState) CycleOutput → Option ℚ
  | .ok o => o.tado_setpoint
  | .error _ => none

/-- The command target of a completed cycle. -/
def cycle_command_target : Except (String × ClimateState) CycleOutput → Option ℚ
  | .ok o => o.command_target
  | .error _ => none

/-- The fast-recovery flag stored on the entity by a completed cycle. -/
def cycle_fast_recovery : Except (String × ClimateState) CycleOutput → Bool
  | .ok o => o.state.fast_recovery_active
  | .error _ => false

/-- The resume-jump flag of a completed cycle. -/
def cycle_resume_jump : Except (String × ClimateState) CycleOutput → Bool
  | .ok o => o.resume_jump_allowed
  | .error _ => false

/-- The message of an uncaught exception, if the cycle raised one. -/
def cycle_error_msg : Except (String × ClimateState) CycleOutput → Option String
  | .ok _ => none
  | .error (m, _) => some m

/-- The post-cycle `_last_command_sent_ts` (none if the cycle raised). -/
def cycle_sent_ts : Except (String × ClimateState) CycleOutput → Option ℚ
  | .ok o => some o.state.last_command_sent_ts
  | .error _ => none

/-- The post-cycle `_last_sent_target_c`. -/
def cycle_sent_target : Except (String × ClimateState) CycleOutput → Option ℚ
  | .ok o => o.state.last_sent_target_c
  | .error _ => none

/-- The logged write error of a completed cycle. -/
def cycle_send_log : Except (String × ClimateState) CycleOutput → Option String
  | .ok o => o.send_log
  | .error _ => none

/-! ### Rounding lemmas -/

lemma roundHalfEven_intCast (k : ℤ) : roundHalfEven (k : ℚ) = k := by
  simp only [roundHalfEven, Int.floor_intCast, sub_self]
  norm_num

lemma roundHalfEven_le {q : ℚ} {k : ℤ} (h : q ≤ (k : ℚ)) : roundHalfEven q ≤ k := by
  have hf : ⌊q⌋ ≤ k := by
    have := Int.floor_le_floor h
    simpa using this
  have hlt : q < (k : ℚ) → ⌊q⌋ + 1 ≤ k := by
    intro hq
    have : ⌊q⌋ < k := Int.floor_lt.mpr (by exact_mod_cast hq)
    omega
  simp only [roundHalfEven]
  split_ifs with h1 h2 h3
  · exact hf
  · refine hlt (lt_of_le_of_ne h ?_)
    intro he
    rw [he, Int.floor_intCast, sub_self] at h2
    norm_num at h2
  · exact hf
  · refine hlt (lt_of_le_of_ne h ?_)
    intro he
    rw [he, Int.floor_intCast, sub_self] at h1
    norm_num at h1

lemma le_roundHalfEven {q : ℚ} {k : ℤ} (h : (k : ℚ) ≤ q) : k ≤ roundHalfEven q := by
  have hf : k ≤ ⌊q⌋ := Int.le_floor.mpr h
  simp only [roundHalfEven]
  split_ifs <;> omega

lemma round1_le {q : ℚ} {k : ℤ} (h : q ≤ (k : ℚ) / 10) : round1 q ≤ (k : ℚ) / 10 := by
  have h10 : q * 10 ≤ (k : ℚ) := by linarith
  have := roundHalfEven_le h10
  have hc : ((roundHalfEven (q * 10) : ℤ) : ℚ) ≤ (k : ℚ) := by exact_mod_cast this
  simp only [round1]
  linarith

lemma le_round1 {q : ℚ} {k : ℤ} (h : (k : ℚ) / 10 ≤ q) : (k : ℚ) / 10 ≤ round1 q := by
  have h10 : (k : ℚ) ≤ q * 10 := by linarith
  have := le_roundHalfEven h10
  have hc : (k : ℚ) ≤ ((roundHalfEven (q * 10) : ℤ) : ℚ) := by exact_mod_cast this
  simp only [round1]
  linarith

lemma round1_tenth (q : ℚ) : ∃ m : ℤ, round1 q = (m : ℚ) / 10 := ⟨_, rfl⟩

lemma round1_tenth_fix (k : ℤ) : round1 ((k : ℚ) / 10) = (k : ℚ) / 10 := by
  simp only [round1]
  rw [div_mul_cancel₀ _ (by norm_num : (10 : ℚ) ≠ 0), roundHalfEven_intCast]

/-! ### Hybrid-regulator lemmas -/

lemma clamp_absolute_target_mem (cfg : HybridConfig) (sp t : ℚ) (a b c d : ℤ)
    (hmin : cfg.min_target_c = (a : ℚ) / 10) (hmax : cfg.max_target_c = (b : ℚ) / 10)
    (hspt : sp = (c : ℚ) / 10) (hofft : cfg.max_offset_c = (d : ℚ) / 10)
    (hoffpos : 0 ≤ cfg.max_offset_c) (hmm : cfg.min_target_c ≤ cfg.max_target_c)
    (hov1 : cfg.min_target_c ≤ sp + cfg.max_offset_c)
    (hov2 : sp - cfg.max_offset_c ≤ cfg.max_target_c) :
    cfg.min_target_c ≤ clamp_absolute_target cfg sp t ∧
    clamp_absolute_target cfg sp t ≤ cfg.max_target_c ∧
    sp - cfg.max_offset_c ≤ clamp_absolute_target cfg sp t ∧
    clamp_absolute_target cfg sp t ≤ sp + cfg.max_offset_c := by
  simp only [clamp_absolute_target]
  set r := max (sp - cfg.max_offset_c) (min (sp + cfg.max_offset_c) t) with hrdef
  set y := max cfg.min_target_c (min cfg.max_target_c r) with hydef
  have hr1 : sp - cfg.max_offset_c ≤ r := le_max_left _ _
  have hr2 : r ≤ sp + cfg.max_offset_c := max_le (by linarith) (min_le_left _ _)
  have hy1 : cfg.min_target_c ≤ y := le_max_left _ _
  have hy2 : y ≤ cfg.max_target_c := max_le hmm (min_le_left _ _)
  have hy3 : sp - cfg.max_offset_c ≤ y := le_max_of_le_right (le_min hov2 hr1)
  have hy4 : y ≤ sp + cfg.max_offset_c := max_le hov1 ((min_le_right _ _).trans hr2)
  have hrel1 : sp - cfg.max_offset_c = ((c - d : ℤ) : ℚ) / 10 := by
    rw [hspt, hofft]; push_cast; ring
  have hrel2 : sp + cfg.max_offset_c = ((c + d : ℤ) : ℚ) / 10 := by
    rw [hspt, hofft]; push_cast; ring
  refine ⟨?_, ?_, ?_, ?_⟩
  · rw [hmin] at hy1 ⊢
    exact le_round1 hy1
  · rw [hmax] at hy2 ⊢
    exact round1_le hy2
  · rw [hrel1] at hy3 ⊢
    exact le_round1 hy3
  · rw [hrel2] at hy4 ⊢
    exact round1_le hy4

lemma compute_target_target_shape (cfg : HybridConfig) (sp room tds : ℚ) (st : HybridState)
    (heat : Bool) (now : ℚ) :
    ∃ t0, (compute_target cfg sp room tds st heat now).target_c
      = clamp_absolute_target cfg sp t0 := by
  cases heat
  · exact ⟨_, rfl⟩
  · exact ⟨_, rfl⟩

lemma compute_target_enabled_shape (cfg : HybridConfig) (sp room tds : ℚ) (st : HybridState)
    (now : ℚ) :
    ∃ (pred : Option ℚ) (m : HybridMode) (r : String) (w : ℚ),
      compute_target cfg sp room tds st true now
        = finish_enabled cfg sp room (max 0 tds) (sp - room)
            (update_trend cfg room (max 0 tds) st) st pred m r w now :=
  ⟨_, _, _, _, rfl⟩

lemma finish_enabled_mode (cfg : HybridConfig) (sp room dt e ema : ℚ) (st : HybridState)
    (pred : Option ℚ) (m : HybridMode) (r : String) (w now : ℚ) :
    (finish_enabled cfg sp room dt e ema st pred m r w now).mode = m := rfl

lemma finish_enabled_new_mode (cfg : HybridConfig) (sp room dt e ema : ℚ) (st : HybridState)
    (pred : Option ℚ) (m : HybridMode) (r : String) (w now : ℚ) :
    (finish_enabled cfg sp room dt e ema st pred m r w now).new_state.mode = m := rfl

lemma finish_enabled_mode_entered (cfg : HybridConfig) (sp room dt e ema : ℚ) (st : HybridState)
    (pred : Option ℚ) (m : HybridMode) (r : String) (w now : ℚ) :
    (finish_enabled cfg sp room dt e ema st pred m r w now).new_state.mode_entered_monotonic_s
      = if m ≠ st.mode then now else st.mode_entered_monotonic_s := rfl

lemma finish_enabled_boost (cfg : HybridConfig) (sp room dt e ema : ℚ) (st : HybridState)
    (pred : Option ℚ) (r : String) (w now : ℚ) :
    (finish_enabled cfg sp room dt e ema st pred .boost r w now).dbg_raw_target
      = some (max cfg.boost_target_c (sp + st.bias_c + cfg.kp * e)) ∧
    (finish_enabled cfg sp room dt e ema st pred .boost r w now).i_small_c = st.i_small_c :=
  ⟨rfl, rfl⟩

lemma rate_limited_clamp_bounds (lo hi b x ms : ℚ) (hms : 0 ≤ ms)
    (hb1 : lo ≤ b) (hb2 : b ≤ hi) :
    lo ≤ (if b + ms < max lo (min hi x) then b + ms
          else if max lo (min hi x) < b - ms then b - ms else max lo (min hi x)) ∧
    (if b + ms < max lo (min hi x) then b + ms
     else if max lo (min hi x) < b - ms then b - ms else max lo (min hi x)) ≤ hi ∧
    |(if b + ms < max lo (min hi x) then b + ms
      else if max lo (min hi x) < b - ms then b - ms else max lo (min hi x)) - b| ≤ ms := by
  have hd1 : lo ≤ max lo (min hi x) := le_max_left _ _
  have hd2 : max lo (min hi x) ≤ hi := max_le (hb1.trans hb2) (min_le_left _ _)
  split_ifs with hlt1 hlt2
  · refine ⟨by linarith, by linarith, ?_⟩
    have he : b + ms - b = ms := by ring
    rw [he, abs_of_nonneg hms]
  · refine ⟨by linarith, by linarith, ?_⟩
    have he : b - ms - b = -ms := by ring
    rw [he, abs_neg, abs_of_nonneg hms]
  · exact ⟨hd1, hd2, abs_le.mpr ⟨by linarith, by linarith⟩⟩

lemma update_bias_bounds (cfg : HybridConfig) (b e ema dt : ℚ)
    (hrate : 0 ≤ cfg.bias_rate_limit_c_per_h) (hdt : 0 ≤ dt)
    (hb1 : cfg.bias_min_c ≤ b) (hb2 : b ≤ cfg.bias_max_c) :
    cfg.bias_min_c ≤ update_bias cfg b e ema dt ∧
    update_bias cfg b e ema dt ≤ cfg.bias_max_c ∧
    |update_bias cfg b e ema dt - b| ≤ cfg.bias_rate_limit_c_per_h / 3600 * dt := by
  have hms : 0 ≤ cfg.bias_rate_limit_c_per_h / 3600 * dt :=
    mul_nonneg (div_nonneg hrate (by norm_num)) hdt
  simp only [update_bias]
  rcases lt_or_le cfg.bias_deadband_c |e| with h1 | h1
  · simp only [if_pos h1]
    exact ⟨hb1, hb2, by simpa using hms⟩
  · simp only [if_neg (not_lt.mpr h1)]
    rcases lt_or_le cfg.bias_trend_max_c_per_min |ema * 60| with h2 | h2
    · simp only [if_pos h2]
      exact ⟨hb1, hb2, by simpa using hms⟩
    · simp only [if_neg (not_lt.mpr h2)]
      exact rate_limited_clamp_bounds cfg.bias_min_c cfg.bias_max_c b _ _ hms hb1 hb2

lemma clamp_interval_mem (lo hi z : ℚ) (hlohi : lo ≤ hi) :
    lo ≤ max lo (min hi z) ∧ max lo (min hi z) ≤ hi :=
  ⟨le_max_left _ _, max_le hlohi (min_le_left _ _)⟩

lemma finish_enabled_bias_i (cfg : HybridConfig) (sp room dt e ema : ℚ) (st : HybridState)
    (pred : Option ℚ) (m : HybridMode) (r : String) (w now : ℚ)
    (hrate : 0 ≤ cfg.bias_rate_limit_c_per_h) (hdt : 0 ≤ dt)
    (hb1 : cfg.bias_min_c ≤ st.bias_c) (hb2 : st.bias_c ≤ cfg.bias_max_c)
    (hi1 : cfg.i_small_min_c ≤ st.i_small_c) (hi2 : st.i_small_c ≤ cfg.i_small_max_c) :
    cfg.bias_min_c ≤ (finish_enabled cfg sp room dt e ema st pred m r w now).new_state.bias_c ∧
    (finish_enabled cfg sp room dt e ema st pred m r w now).new_state.bias_c ≤ cfg.bias_max_c ∧
    |(finish_enabled cfg sp room dt e ema st pred m r w now).new_state.bias_c - st.bias_c|
      ≤ cfg.bias_rate_limit_c_per_h / 3600 * dt ∧
    cfg.i_small_min_c ≤ (finish_enabled cfg sp room dt e ema st pred m r w now).new_state.i_small_c ∧
    (finish_enabled cfg sp room dt e ema st pred m r w now).new_state.i_small_c
      ≤ cfg.i_small_max_c := by
  have hms : 0 ≤ cfg.bias_rate_limit_c_per_h / 3600 * dt :=
    mul_nonneg (div_nonneg hrate (by norm_num)) hdt
  have habs : |st.bias_c - st.bias_c| ≤ cfg.bias_rate_limit_c_per_h / 3600 * dt := by
    simpa using hms
  have hclamp := clamp_interval_mem cfg.i_small_min_c cfg.i_small_max_c
    (st.i_small_c + e * cfg.ki_small * dt) (hi1.trans hi2)
  cases m
  case boost =>
    have hcond : ¬(HybridMode.boost = HybridMode.hold ∧ 0 < dt) := fun hc => nomatch hc.1
    simp only [finish_enabled, if_neg hcond]
    exact ⟨hb1, hb2, habs, hi1, hi2⟩
  case coast =>
    have hcond : ¬(HybridMode.coast = HybridMode.hold ∧ 0 < dt) := fun hc => nomatch hc.1
    simp only [finish_enabled, if_neg hcond]
    exact ⟨hb1, hb2, habs, hi1, hi2⟩
  case hold =>
    by_cases hdt' : 0 < dt
    · have hcond : HybridMode.hold = HybridMode.hold ∧ 0 < dt := ⟨rfl, hdt'⟩
      simp only [finish_enabled, if_pos hcond]
      split_ifs with h1 h2 h3 <;>
        refine ⟨?_, ?_, ?_, ?_, ?_⟩ <;>
          first
            | exact hb1
            | exact hb2
            | exact habs
            | exact hi1
            | exact hi2
            | exact hclamp.1
            | exact hclamp.2
            | exact (update_bias_bounds cfg st.bias_c e ema dt hrate hdt hb1 hb2).1
            | exact (update_bias_bounds cfg st.bias_c e ema dt hrate hdt hb1 hb2).2.1
            | exact (update_bias_bounds cfg st.bias_c e ema dt hrate hdt hb1 hb2).2.2
    · have hcond : ¬(HybridMode.hold = HybridMode.hold ∧ 0 < dt) := fun hc => hdt' hc.2
      simp only [finish_enabled, if_neg hcond]
      split_ifs with h1 h2 h3 <;>
        refine ⟨?_, ?_, ?_, ?_, ?_⟩ <;>
          first
            | exact hb1
            | exact hb2
            | exact habs
            | exact hi1
            | exact hi2
            | exact hclamp.1
            | exact hclamp.2
            | exact (update_bias_bounds cfg st.bias_c e ema dt hrate hdt hb1 hb2).1
            | exact (update_bias_bounds cfg st.bias_c e ema dt hrate hdt hb1 hb2).2.1
            | exact (update_bias_bounds cfg st.bias_c e ema dt hrate hdt hb1 hb2).2.2

/-! ### Hybrid-regulator claim theorems (C1, C2, C7, C8) -/

/-- C1 (counterexample): with the default configuration and setpoint 40 °C the
computed target is 25 °C, outside the relative bound
`setpoint − max_offset_c = 32`: the target is **not** always within the
relative bounds, because the absolute clamp is applied after the relative
clamp. -/
theorem c1_counterexample :
    (compute_target hcfg_default 40 40 60 hstate_default true 1000).target_c = 25 ∧
    ¬(40 - hcfg_default.max_offset_c
        ≤ (compute_target hcfg_default 40 40 60 hstate_default true 1000).target_c) := by
  with_unfolding_all decide

/-- C1 (amended): for a setpoint and configuration bounds that are multiples
of 0.1 °C, with `0 ≤ max_offset_c`, `min_target_c ≤ max_target_c`, and the
relative window `[setpoint − max_offset_c, setpoint + max_offset_c]`
overlapping the absolute window `[min_target_c, max_target_c]`, the target
returned by `compute_target` lies in both windows and is a multiple of
0.1 °C.  (Without the overlap hypotheses only the absolute bounds hold: the
absolute clamp is applied last and wins.) -/
theorem c1_clamping_amended (cfg : HybridConfig) (sp room tds : ℚ) (st : HybridState)
    (heat : Bool) (now : ℚ) (a b c d : ℤ)
    (hmin : cfg.min_target_c = (a : ℚ) / 10) (hmax : cfg.max_target_c = (b : ℚ) / 10)
    (hspt : sp = (c : ℚ) / 10) (hofft : cfg.max_offset_c = (d : ℚ) / 10)
    (hoffpos : 0 ≤ cfg.max_offset_c) (hmm : cfg.min_target_c ≤ cfg.max_target_c)
    (hov1 : cfg.min_target_c ≤ sp + cfg.max_offset_c)
    (hov2 : sp - cfg.max_offset_c ≤ cfg.max_target_c) :
    cfg.min_target_c ≤ (compute_target cfg sp room tds st heat now).target_c ∧
    (compute_target cfg sp room tds st heat now).target_c ≤ cfg.max_target_c ∧
    sp - cfg.max_offset_c ≤ (compute_target cfg sp room tds st heat now).target_c ∧
    (compute_target cfg sp room tds st heat now).target_c ≤ sp + cfg.max_offset_c ∧
    ∃ k : ℤ, (compute_target cfg sp room tds st heat now).target_c = (k : ℚ) / 10 := by
  obtain ⟨t0, ht⟩ := compute_target_target_shape cfg sp room tds st heat now
  rw [ht]
  have hm := clamp_absolute_target_mem cfg sp t0 a b c d hmin hmax hspt hofft hoffpos hmm hov1 hov2
  exact ⟨hm.1, hm.2.1, hm.2.2.1, hm.2.2.2, round1_tenth _⟩

/-- C1 (witness): the amended theorem applied at the default configuration,
setpoint 20 °C, room 19 °C. -/
theorem c1_witness :
    (hcfg_default.min_target_c = ((50 : ℤ) : ℚ) / 10 ∧
     hcfg_default.max_target_c = ((250 : ℤ) : ℚ) / 10 ∧
     (20 : ℚ) = ((200 : ℤ) : ℚ) / 10 ∧
     hcfg_default.max_offset_c = ((80 : ℤ) : ℚ) / 10 ∧
     0 ≤ hcfg_default.max_offset_c ∧
     hcfg_default.min_target_c ≤ hcfg_default.max_target_c ∧
     hcfg_default.min_target_c ≤ 20 + hcfg_default.max_offset_c ∧
     20 - hcfg_default.max_offset_c ≤ hcfg_default.max_target_c) ∧
    (hcfg_default.min_target_c
        ≤ (compute_target hcfg_default 20 19 60 hstate_default true 1000).target_c ∧
     (compute_target hcfg_default 20 19 60 hstate_default true 1000).target_c
        ≤ hcfg_default.max_target_c ∧
     20 - hcfg_default.max_offset_c
        ≤ (compute_target hcfg_default 20 19 60 hstate_default true 1000).target_c ∧
     (compute_target hcfg_default 20 19 60 hstate_default true 1000).target_c
        ≤ 20 + hcfg_default.max_offset_c ∧
     ∃ k : ℤ, (compute_target hcfg_default 20 19 60 hstate_default true 1000).target_c
        = (k : ℚ) / 10) :=
  ⟨⟨by with_unfolding_all decide, by with_unfolding_all decide, by with_unfolding_all decide, by with_unfolding_all decide, by with_unfolding_all decide, by with_unfolding_all decide, by with_unfolding_all decide, by with_unfolding_all decide⟩,
    c1_clamping_amended hcfg_default 20 19 60 hstate_default true 1000 50 250 200 80
      (by with_unfolding_all decide) (by with_unfolding_all decide) (by with_unfolding_all decide) (by with_unfolding_all decide) (by with_unfolding_all decide) (by with_unfolding_all decide)
      (by with_unfolding_all decide) (by with_unfolding_all decide)⟩

/-- C2 (counterexample): in BOOST the floor of the raw target is the absolute
`boost_target_c` (25 °C by default), not an offset relative to the setpoint:
two BOOST cycles with setpoints 12 °C and 15.5 °C (error 0.7 °C each) both
produce raw target 25, at distances 13 and 9.5 from their setpoints — there
is no fixed `boost_floor_offset`, and small errors do get a fixed absolute
high target. -/
theorem c2_counterexample :
    (compute_target hcfg_default 12 (113 / 10) 60 hstate_default true 1000).mode
      = HybridMode.boost ∧
    (compute_target hcfg_default 12 (113 / 10) 60 hstate_default true 1000).dbg_raw_target
      = some 25 ∧
    (compute_target hcfg_default (155 / 10) (148 / 10) 60 hstate_default true 1000).mode
      = HybridMode.boost ∧
    (compute_target hcfg_default (155 / 10) (148 / 10) 60 hstate_default true 1000).dbg_raw_target
      = some 25 ∧
    (25 : ℚ) - 12 ≠ 25 - 155 / 10 := by
  with_unfolding_all decide

/-- C2 (amended): whenever `compute_target` (with heating enabled) decides
BOOST, the raw target before final clamping is
`max(boost_target_c, setpoint + bias + kp·error)` — an **absolute** floor at
`boost_target_c` — and the small integral is left unchanged. -/
theorem c2_boost_floor_amended (cfg : HybridConfig) (sp room tds : ℚ) (st : HybridState)
    (now : ℚ)
    (h : (compute_target cfg sp room tds st true now).mode = HybridMode.boost) :
    (compute_target cfg sp room tds st true now).dbg_raw_target
      = some (max cfg.boost_target_c (sp + st.bias_c + cfg.kp * (sp - room))) ∧
    (compute_target cfg sp room tds st true now).i_small_c = st.i_small_c := by
  obtain ⟨pred, m, r, w, heq⟩ := compute_target_enabled_shape cfg sp room tds st now
  rw [heq] at h ⊢
  rw [finish_enabled_mode] at h
  subst h
  exact finish_enabled_boost cfg sp room (max 0 tds) (sp - room)
    (update_trend cfg room (max 0 tds) st) st pred r w now

/-- C2 (witness): a BOOST cycle at setpoint 12 °C, room 11.3 °C. -/
theorem c2_witness :
    (compute_target hcfg_default 12 (113 / 10) 60 hstate_default true 1000).mode
      = HybridMode.boost ∧
    ((compute_target hcfg_default 12 (113 / 10) 60 hstate_default true 1000).dbg_raw_target
        = some (max hcfg_default.boost_target_c
            (12 + hstate_default.bias_c + hcfg_default.kp * (12 - 113 / 10))) ∧
     (compute_target hcfg_default 12 (113 / 10) 60 hstate_default true 1000).i_small_c
        = hstate_default.i_small_c) :=
  ⟨by with_unfolding_all decide,
    c2_boost_floor_amended hcfg_default 12 (113 / 10) 60 hstate_default 1000 (by with_unfolding_all decide)⟩

/-- C7: one tick of `compute_target` keeps the bias inside
`[bias_min_c, bias_max_c]`, moves it by at most
`bias_rate_limit_c_per_h/3600 · dt` (with `dt = max 0 time_delta_s`), and
keeps the small integral inside `[i_small_min_c, i_small_max_c]`, provided
the incoming state satisfies the clamps and the rate limit is nonnegative. -/
theorem c7_bias_integral_invariant (cfg : HybridConfig) (sp room tds : ℚ) (st : HybridState)
    (heat : Bool) (now : ℚ)
    (hrate : 0 ≤ cfg.bias_rate_limit_c_per_h)
    (hb1 : cfg.bias_min_c ≤ st.bias_c) (hb2 : st.bias_c ≤ cfg.bias_max_c)
    (hi1 : cfg.i_small_min_c ≤ st.i_small_c) (hi2 : st.i_small_c ≤ cfg.i_small_max_c) :
    cfg.bias_min_c ≤ (compute_target cfg sp room tds st heat now).new_state.bias_c ∧
    (compute_target cfg sp room tds st heat now).new_state.bias_c ≤ cfg.bias_max_c ∧
    |(compute_target cfg sp room tds st heat now).new_state.bias_c - st.bias_c|
      ≤ cfg.bias_rate_limit_c_per_h / 3600 * max 0 tds ∧
    cfg.i_small_min_c ≤ (compute_target cfg sp room tds st heat now).new_state.i_small_c ∧
    (compute_target cfg sp room tds st heat now).new_state.i_small_c ≤ cfg.i_small_max_c := by
  have hdt : (0 : ℚ) ≤ max 0 tds := le_max_left _ _
  have hms : 0 ≤ cfg.bias_rate_limit_c_per_h / 3600 * max 0 tds :=
    mul_nonneg (div_nonneg hrate (by norm_num)) hdt
  cases heat
  · have e1 : (compute_target cfg sp room tds st false now).new_state.bias_c = st.bias_c := rfl
    have e2 : (compute_target cfg sp room tds st false now).new_state.i_small_c
        = st.i_small_c := rfl
    rw [e1, e2]
    exact ⟨hb1, hb2, by simpa using hms, hi1, hi2⟩
  · obtain ⟨pred, m, r, w, heq⟩ := compute_target_enabled_shape cfg sp room tds st now
    rw [heq]
    exact finish_enabled_bias_i cfg sp room (max 0 tds) (sp - room)
      (update_trend cfg room (max 0 tds) st) st pred m r w now hrate hdt hb1 hb2 hi1 hi2

/-- C7 (witness): one steady-state tick at the default configuration. -/
theorem c7_witness :
    ((0 : ℚ) ≤ hcfg_default.bias_rate_limit_c_per_h ∧
     hcfg_default.bias_min_c ≤ hstate_default.bias_c ∧
     hstate_default.bias_c ≤ hcfg_default.bias_max_c ∧
     hcfg_default.i_small_min_c ≤ hstate_default.i_small_c ∧
     hstate_default.i_small_c ≤ hcfg_default.i_small_max_c) ∧
    (hcfg_default.bias_min_c
        ≤ (compute_target hcfg_default 20 (199 / 10) 60 hstate_default true 1000).new_state.bias_c ∧
     (compute_target hcfg_default 20 (199 / 10) 60 hstate_default true 1000).new_state.bias_c
        ≤ hcfg_default.bias_max_c ∧
     |(compute_target hcfg_default 20 (199 / 10) 60 hstate_default true 1000).new_state.bias_c
        - hstate_default.bias_c|
        ≤ hcfg_default.bias_rate_limit_c_per_h / 3600 * max 0 60 ∧
     hcfg_default.i_small_min_c
        ≤ (compute_target hcfg_default 20 (199 / 10) 60 hstate_default true 1000).new_state.i_small_c ∧
     (compute_target hcfg_default 20 (199 / 10) 60 hstate_default true 1000).new_state.i_small_c
        ≤ hcfg_default.i_small_max_c) :=
  ⟨⟨by with_unfolding_all decide, by with_unfolding_all decide, by with_unfolding_all decide, by with_unfolding_all decide, by with_unfolding_all decide⟩,
    c7_bias_integral_invariant hcfg_default 20 (199 / 10) 60 hstate_default true 1000
      (by with_unfolding_all decide) (by with_unfolding_all decide) (by with_unfolding_all decide) (by with_unfolding_all decide) (by with_unfolding_all decide)⟩

/-- C8 (counterexample): with heating disabled, a HOLD→COAST transition does
**not** reset the mode-entered timestamp: the early return keeps the previous
value (0 here) instead of the monotonic time of the tick (1000). -/
theorem c8_counterexample :
    (compute_target hcfg_default 20 19 60 hstate_default false 1000).new_state.mode
      = HybridMode.coast ∧
    hstate_default.mode = HybridMode.hold ∧
    (compute_target hcfg_default 20 19 60 hstate_default false 1000).new_state.mode
      ≠ hstate_default.mode ∧
    HybridState.mode_entered_monotonic_s
        (compute_target hcfg_default 20 19 60 hstate_default false 1000).new_state = 0 ∧
    (0 : ℚ) ≠ 1000 := by
  with_unfolding_all decide

/-- C8 (amended): when heating is enabled, every mode change of
`compute_target` resets the mode-entered timestamp to the monotonic time of the tick.  (The heating-disabled early return keeps the previous timestamp even
when it switches the mode to COAST.) -/
theorem c8_mode_timestamp_amended (cfg : HybridConfig) (sp room tds : ℚ) (st : HybridState)
    (now : ℚ)
    (h : (compute_target cfg sp room tds st true now).new_state.mode ≠ st.mode) :
    (compute_target cfg sp room tds st true now).new_state.mode_entered_monotonic_s = now := by
  obtain ⟨pred, m, r, w, heq⟩ := compute_target_enabled_shape cfg sp room tds st now
  rw [heq] at h ⊢
  rw [finish_enabled_new_mode] at h
  rw [finish_enabled_mode_entered, if_pos h]

/-- C8 (witness): a HOLD→BOOST transition with heating enabled resets the
timestamp to the tick time 1000. -/
theorem c8_witness :
    (compute_target hcfg_default 12 (113 / 10) 60 hstate_default true 1000).new_state.mode
      ≠ hstate_default.mode ∧
    HybridState.mode_entered_monotonic_s
        (compute_target hcfg_default 12 (113 / 10) 60 hstate_default true 1000).new_state
      = 1000 :=
  ⟨by with_unfolding_all decide,
    c8_mode_timestamp_amended hcfg_default 12 (113 / 10) 60 hstate_default 1000 (by with_unfolding_all decide)⟩

/-! ### Command-policy lemmas (climate.py) -/

lemma round1_round1 (q : ℚ) : round1 (round1 q) = round1 q :=
  round1_tenth_fix (roundHalfEven (q * 10))

lemma decide_send_decrease (cmd cur : ℚ) (wf rj : Bool) (ei nw lts : ℚ)
    (h : cmd ≤ cur - MIN_SEND_DELTA_C) :
    (decide_send cmd (some cur) wf rj ei nw lts).1 = true := by
  have hlt : cmd < cur - RATE_LIMIT_DECREASE_EPS_C := by
    simp only [MIN_SEND_DELTA_C] at h
    simp only [RATE_LIMIT_DECREASE_EPS_C]
    linarith
  have habs : ¬(|cmd - cur| < MIN_SEND_DELTA_C) := by
    rw [not_lt]
    have h1 : MIN_SEND_DELTA_C ≤ cur - cmd := by linarith
    have h2 : cur - cmd ≤ |cmd - cur| := by
      rw [abs_sub_comm]
      exact le_abs_self _
    linarith
  simp only [decide_send]
  -- split_ifs discharges the min-delta and decrease conditions against habs
  -- and hlt from the context, leaving only goals of the form (true, r).1 = true
  split_ifs <;> rfl

lemma async_send_failure_log (s : String) (v : ℚ) :
    async_send_to_tado (some s) false v
      = some ("Failed to send command to Tado: ServiceError") := rfl

lemma select_policy_step (cfg : Climate.RegulationConfig) (wf : Bool) (hm : HVACMode)
    (ib : Bool) (re tg : ℚ) :
    (select_command_policy cfg wf hm ib re tg).effective_step_up_c
      = if (select_command_policy cfg wf hm ib re tg).fast_recovery_active
        then FAST_RECOVERY_MAX_STEP_UP_C else MAX_STEP_UP_C := by
  simp only [select_command_policy]
  split_ifs <;>
    first
      | rfl
      | (rw [MAX_STEP_UP_C, FAST_RECOVERY_MAX_STEP_UP_C]; exact max_eq_right (by norm_num))

lemma build_decide_step_up (desired cur step : ℚ) (rj wf : Bool) (ei nw lts : ℚ) (j k : ℤ)
    (hd : desired = (j : ℚ) / 10) (hc : cur = (k : ℚ) / 10)
    (hstep : step = 1 / 2 ∨ step = 2)
    (hsend : (decide_send (build_command_target desired (some cur) rj step).1 (some cur)
        wf rj ei nw lts).1 = true)
    (hinc : cur < (build_command_target desired (some cur) rj step).1) :
    (build_command_target desired (some cur) rj step).1 - cur ≤ step ∨ rj = true := by
  cases rj
  case true => exact Or.inr rfl
  case false =>
    left
    simp only [build_command_target, Bool.false_eq_true, if_false] at hsend hinc ⊢
    split_ifs at hsend hinc ⊢ with hgt
    · -- stepped-up branch: the command is `round1 (round1 (min desired (cur + step)))`
      have hcs : ∃ m : ℤ, cur + step = (m : ℚ) / 10 := by
        rcases hstep with h | h
        · exact ⟨k + 5, by rw [h, hc]; push_cast; ring⟩
        · exact ⟨k + 20, by rw [h, hc]; push_cast; ring⟩
      obtain ⟨m, hm⟩ := hcs
      have hminv : ∃ n : ℤ, min desired (cur + step) = (n : ℚ) / 10 := by
        rcases le_total desired (cur + step) with hle | hle
        · exact ⟨j, by rw [min_eq_left hle, hd]⟩
        · exact ⟨m, by rw [min_eq_right hle, hm]⟩
      obtain ⟨n, hn⟩ := hminv
      rw [hn, round1_tenth_fix, round1_tenth_fix, ← hn]
      have := min_le_right desired (cur + step)
      linarith
    · -- no step-up: the command equals `desired ≤ cur + 0.05`, yet an increase
      -- was sent — impossible, the minimum-delta guard blocks it
      exfalso
      rw [hd, round1_tenth_fix, ← hd] at hsend hinc
      have hsmall : |desired - cur| < MIN_SEND_DELTA_C := by
        rw [abs_of_pos (by linarith : (0 : ℚ) < desired - cur)]
        rw [not_lt] at hgt
        simp only [MIN_SEND_DELTA_C]
        linarith
      simp only [decide_send] at hsend
      rw [if_neg (by rintro ⟨hfalse, -⟩; exact absurd hfalse (by simp))] at hsend
      rw [if_neg (by
        rintro ⟨-, hdec⟩
        simp only [RATE_LIMIT_DECREASE_EPS_C] at hdec
        linarith)] at hsend
      rw [if_pos hsmall] at hsend
      exact absurd hsend (by simp)

lemma main_urgent_decrease (cfg : Climate.RegulationConfig) (hcfg : HybridConfig)
    (self : ClimateState) (rt : ℚ) (tsp : Option ℚ) (esp dts : ℚ) (wf : Bool)
    (wr : Option String) (rfw : Bool) (src : Option String) (wok : Bool) (nw nm : ℚ)
    (cur cmd : ℚ)
    (hsp : (run_cycle_main cfg hcfg self rt tsp esp dts wf wr rfw src wok nw nm).tado_setpoint
        = some cur)
    (hcmd : (run_cycle_main cfg hcfg self rt tsp esp dts wf wr rfw src wok nw nm).command_target
        = some cmd)
    (h : cmd ≤ cur - MIN_SEND_DELTA_C) :
    (run_cycle_main cfg hcfg self rt tsp esp dts wf wr rfw src wok nw nm).should_send = true := by
  simp only [run_cycle_main] at hsp hcmd ⊢
  subst hsp
  simp only [Option.some.injEq] at hcmd
  rw [hcmd]
  exact decide_send_decrease cmd cur _ _ _ _ _ h

lemma main_send_memory (cfg : Climate.RegulationConfig) (hcfg : HybridConfig)
    (self : ClimateState) (rt : ℚ) (tsp : Option ℚ) (esp dts : ℚ) (wf : Bool)
    (wr : Option String) (rfw : Bool) (src : Option String) (wok : Bool) (nw nm : ℚ)
    (hsend : (run_cycle_main cfg hcfg self rt tsp esp dts wf wr rfw src wok nw nm).should_send
        = true) :
    (run_cycle_main cfg hcfg self rt tsp esp dts wf wr rfw src wok
        nw nm).state.last_command_sent_ts = nw ∧
    (run_cycle_main cfg hcfg self rt tsp esp dts wf wr rfw src wok
        nw nm).state.last_sent_target_c
      = (run_cycle_main cfg hcfg self rt tsp esp dts wf wr rfw src wok nw nm).command_target ∧
    (run_cycle_main cfg hcfg self rt tsp esp dts wf wr rfw src wok nw nm).send_log
      = async_send_to_tado src wok
          ((run_cycle_main cfg hcfg self rt tsp esp dts wf wr rfw src wok
            nw nm).command_target.getD 0) := by
  simp only [run_cycle_main] at hsend ⊢
  simp only [hsend, if_true, Option.getD_some]
  refine ⟨?_, ?_, ?_⟩ <;> trivial

lemma main_step_up (cfg : Climate.RegulationConfig) (hcfg : HybridConfig)
    (self : ClimateState) (rt : ℚ) (tsp : Option ℚ) (esp dts : ℚ) (wf : Bool)
    (wr : Option String) (rfw : Bool) (src : Option String) (wok : Bool) (nw nm : ℚ)
    (cur cmd : ℚ) (k : ℤ)
    (hsp : (run_cycle_main cfg hcfg self rt tsp esp dts wf wr rfw src wok nw nm).tado_setpoint
        = some cur)
    (hk : cur = (k : ℚ) / 10)
    (hcmd : (run_cycle_main cfg hcfg self rt tsp esp dts wf wr rfw src wok nw nm).command_target
        = some cmd)
    (hsend : (run_cycle_main cfg hcfg self rt tsp esp dts wf wr rfw src wok nw nm).should_send
        = true)
    (hinc : cur < cmd) :
    cmd - cur
      ≤ (if (run_cycle_main cfg hcfg self rt tsp esp dts wf wr rfw src wok
            nw nm).state.fast_recovery_active
         then FAST_RECOVERY_MAX_STEP_UP_C else MAX_STEP_UP_C) ∨
    (run_cycle_main cfg hcfg self rt tsp esp dts wf wr rfw src wok nw nm).resume_jump_allowed
      = true := by
  simp only [run_cycle_main] at hsp hcmd hsend ⊢
  subst hsp
  simp only [Option.some.injEq] at hcmd
  simp only [hsend, if_true]
  obtain ⟨j, hj⟩ := round1_tenth
    (max cfg.min_target_c (min cfg.max_target_c
      (HybridRegulation.compute_target hcfg esp rt dts self.hybrid_state
        (decide (self.hvac_mode ≠ HVACMode.off)) nm).target_c))
  rw [← hcmd] at hinc
  have hsel := select_policy_step cfg wf self.hvac_mode
    (decide ((HybridRegulation.compute_target hcfg esp rt dts self.hybrid_state
      (decide (self.hvac_mode ≠ HVACMode.off)) nm).mode = HybridMode.boost))
    (esp - rt)
    ((round1 (max cfg.min_target_c (min cfg.max_target_c
      (HybridRegulation.compute_target hcfg esp rt dts self.hybrid_state
        (decide (self.hvac_mode ≠ HVACMode.off)) nm).target_c))) - cur)
  have hstep2 : (select_command_policy cfg wf self.hvac_mode
      (decide ((HybridRegulation.compute_target hcfg esp rt dts self.hybrid_state
        (decide (self.hvac_mode ≠ HVACMode.off)) nm).mode = HybridMode.boost))
      (esp - rt)
      ((round1 (max cfg.min_target_c (min cfg.max_target_c
        (HybridRegulation.compute_target hcfg esp rt dts self.hybrid_state
          (decide (self.hvac_mode ≠ HVACMode.off)) nm).target_c))) - cur)).effective_step_up_c
        = 1 / 2 ∨
      (select_command_policy cfg wf self.hvac_mode
      (decide ((HybridRegulation.compute_target hcfg esp rt dts self.hybrid_state
        (decide (self.hvac_mode ≠ HVACMode.off)) nm).mode = HybridMode.boost))
      (esp - rt)
      ((round1 (max cfg.min_target_c (min cfg.max_target_c
        (HybridRegulation.compute_target hcfg esp rt dts self.hybrid_state
          (decide (self.hvac_mode ≠ HVACMode.off)) nm).target_c))) - cur)).effective_step_up_c
        = 2 := by
    rw [hsel]
    split_ifs
    · exact Or.inr rfl
    · exact Or.inl rfl
  have hres := build_decide_step_up
    (round1 (max cfg.min_target_c (min cfg.max_target_c
      (HybridRegulation.compute_target hcfg esp rt dts self.hybrid_state
        (decide (self.hvac_mode ≠ HVACMode.off)) nm).target_c)))
    cur _ _ wf _ nw self.last_command_sent_ts j k hj hk hstep2 hsend hinc
  rw [hcmd] at hres
  rw [← hsel]
  exact hres

/-! ### Climate-cycle claim theorems (C3, C4, C5, C6, C9) -/

/-- C3: evaluating a regulation cycle while the window override is
FORCED_OPEN (open sensor, zero open delay) raises
`TypeError` — the synthetic `HybridResult` at climate.py lines 538–546 omits
the required dataclass fields `i_small_c`, `bias_c` and `dTdt_ema_c_per_s` —
so the cycle aborts: the command target is never pinned to frost protection
and no urgent decrease is sent. -/
theorem c3_window_forced_typeerror :
    cycle_error_msg
        (run_regulation_cycle ccfg_default hcfg_default cst_window_forced (some 19) none (some 18)
          none none (some ("climate.tado")) true 1000 500)
      = some ("TypeError: HybridResult.__init__ missing i_small_c, bias_c, dTdt_ema_c_per_s") ∧
    cycle_should_send
        (run_regulation_cycle ccfg_default hcfg_default cst_window_forced (some 19) none (some 18)
          none none (some ("climate.tado")) true 1000 500) = false := by
  with_unfolding_all decide

/-- C4 (counterexample): a cycle whose actuator write fails
(`wok = false`, the service call raises and the error is logged) still
updates the command memory: `_last_command_sent_ts` moves from 0 to the
cycle wall time 1000, contradicting "the command memory is left
unchanged". -/
theorem c4_counterexample :
    cycle_should_send
        (run_regulation_cycle ccfg_default hcfg_default cst_base (some 18) none (some 18)
          none none (some ("climate.tado")) false 1000 500) = true ∧
    cycle_send_log
        (run_regulation_cycle ccfg_default hcfg_default cst_base (some 18) none (some 18)
          none none (some ("climate.tado")) false 1000 500)
      = some ("Failed to send command to Tado: ServiceError") ∧
    cst_base.last_command_sent_ts = 0 ∧
    cycle_sent_ts
        (run_regulation_cycle ccfg_default hcfg_default cst_base (some 18) none (some 18)
          none none (some ("climate.tado")) false 1000 500) = some 1000 ∧
    (1000 : ℚ) ≠ 0 := by
  with_unfolding_all decide

/-- C4 (amended): an actuator-write failure is caught inside
`_async_send_to_tado` and logged, and the cycle completes normally
(`Except.ok`); but whenever a send was decided the command memory
(`_last_command_sent_ts`, `_last_sent_target_c`) is updated to the attempted
command and the cycle wall time **regardless of whether the write
succeeded** — the next cycle does not retry against the old baseline. -/
theorem c4_write_failure_memory_amended (cfg : Climate.RegulationConfig) (hcfg : HybridConfig)
    (self : ClimateState) (room si ss ci cs : Option ℚ) (src : Option String) (wok : Bool)
    (nw nm : ℚ)
    (hsend : cycle_should_send (run_regulation_cycle cfg hcfg self room si ss ci cs src wok nw nm)
        = true) :
    (∃ o, run_regulation_cycle cfg hcfg self room si ss ci cs src wok nw nm = Except.ok o) ∧
    cycle_sent_ts (run_regulation_cycle cfg hcfg self room si ss ci cs src wok nw nm)
      = some nw ∧
    cycle_sent_target (run_regulation_cycle cfg hcfg self room si ss ci cs src wok nw nm)
      = cycle_command_target (run_regulation_cycle cfg hcfg self room si ss ci cs src wok nw nm) ∧
    (wok = false → ∀ s, src = some s →
      cycle_send_log (run_regulation_cycle cfg hcfg self room si ss ci cs src wok nw nm)
        = some ("Failed to send command to Tado: ServiceError")) := by
  cases room with
  | none =>
      simp only [run_regulation_cycle, cycle_should_send] at hsend
      exact absurd hsend (by simp)
  | some rt =>
      simp only [run_regulation_cycle] at hsend ⊢
      split_ifs at hsend ⊢ <;>
        first
          | (try simp only [cycle_should_send] at hsend
             have hm := main_send_memory _ _ _ _ _ _ _ _ _ _ _ _ nw nm hsend
             refine ⟨⟨_, rfl⟩, ?_, ?_, ?_⟩
             · try simp only [cycle_sent_ts]
               rw [hm.1]
             · try simp only [cycle_sent_target, cycle_command_target]
               exact hm.2.1
             · intro hw s hs
               subst hw
               subst hs
               try simp only [cycle_send_log]
               rw [hm.2.2]
               exact async_send_failure_log s _)
          | exact absurd hsend (by simp [cycle_should_send])

/-- C4 (witness): the amended theorem at the concrete failing-write cycle. -/
theorem c4_witness :
    cycle_should_send
        (run_regulation_cycle ccfg_default hcfg_default cst_base (some 18) none (some 18)
          none none (some ("climate.tado")) false 1000 500) = true ∧
    ((∃ o, run_regulation_cycle ccfg_default hcfg_default cst_base (some 18) none (some 18)
          none none (some ("climate.tado")) false 1000 500 = Except.ok o) ∧
     cycle_sent_ts
        (run_regulation_cycle ccfg_default hcfg_default cst_base (some 18) none (some 18)
          none none (some ("climate.tado")) false 1000 500) = some 1000 ∧
     cycle_sent_target
        (run_regulation_cycle ccfg_default hcfg_default cst_base (some 18) none (some 18)
          none none (some ("climate.tado")) false 1000 500)
       = cycle_command_target
          (run_regulation_cycle ccfg_default hcfg_default cst_base (some 18) none (some 18)
            none none (some ("climate.tado")) false 1000 500) ∧
     (false = false → ∀ s, (some ("climate.tado") : Option String) = some s →
       cycle_send_log
          (run_regulation_cycle ccfg_default hcfg_default cst_base (some 18) none (some 18)
            none none (some ("climate.tado")) false 1000 500)
         = some ("Failed to send command to Tado: ServiceError"))) :=
  ⟨by with_unfolding_all decide,
    c4_write_failure_memory_amended ccfg_default hcfg_default cst_base (some 18) none (some 18)
      none none (some ("climate.tado")) false 1000 500 (by with_unfolding_all decide)⟩

/-- C5: whenever a regulation cycle completes with a known actuator setpoint
and its command target is below that setpoint by at least
`MIN_SEND_DELTA_C`, the command is sent — for any last-sent timestamp and
wall time, including zero elapsed time; decreases are never suppressed by the
rate limiter. -/
theorem c5_urgent_decrease_always_sent (cfg : Climate.RegulationConfig) (hcfg : HybridConfig)
    (self : ClimateState) (room si ss ci cs : Option ℚ) (src : Option String) (wok : Bool)
    (nw nm cur cmd : ℚ)
    (hsp : cycle_tado_setpoint (run_regulation_cycle cfg hcfg self room si ss ci cs src wok nw nm)
        = some cur)
    (hcmd : cycle_command_target (run_regulation_cycle cfg hcfg self room si ss ci cs src wok nw nm)
        = some cmd)
    (h : cmd ≤ cur - MIN_SEND_DELTA_C) :
    cycle_should_send (run_regulation_cycle cfg hcfg self room si ss ci cs src wok nw nm)
      = true := by
  cases room with
  | none =>
      simp only [run_regulation_cycle, cycle_tado_setpoint] at hsp
      exact Option.noConfusion hsp
  | some rt =>
      simp only [run_regulation_cycle] at hsp hcmd ⊢
      split_ifs at hsp hcmd ⊢ <;>
        first
          | exact Option.noConfusion hsp
          | (try simp only [cycle_tado_setpoint] at hsp
             try simp only [cycle_command_target] at hcmd
             try simp only [cycle_should_send]
             first
               | exact Option.noConfusion hsp
               | exact main_urgent_decrease _ _ _ _ _ _ _ _ _ _ _ _ _ _ _ _ hsp hcmd h)

/-- C5 (witness): a decrease from actuator setpoint 22 °C to command 12 °C is
sent even though `now_wall` equals the last-sent timestamp (zero elapsed
time, fully rate-limited). -/
theorem c5_witness :
    cycle_tado_setpoint
        (run_regulation_cycle ccfg_default hcfg_default cst_rate_limited (some 25) none (some 22)
          none none (some ("climate.tado")) true 1000 500) = some 22 ∧
    cycle_command_target
        (run_regulation_cycle ccfg_default hcfg_default cst_rate_limited (some 25) none (some 22)
          none none (some ("climate.tado")) true 1000 500) = some 12 ∧
    (12 : ℚ) ≤ 22 - MIN_SEND_DELTA_C ∧
    cycle_should_send
        (run_regulation_cycle ccfg_default hcfg_default cst_rate_limited (some 25) none (some 22)
          none none (some ("climate.tado")) true 1000 500) = true :=
  ⟨by with_unfolding_all decide, by with_unfolding_all decide, by with_unfolding_all decide,
    c5_urgent_decrease_always_sent ccfg_default hcfg_default cst_rate_limited (some 25) none
      (some 22) none none (some ("climate.tado")) true 1000 500 22 12
      (by with_unfolding_all decide) (by with_unfolding_all decide)
      (by with_unfolding_all decide)⟩

/-- C6 (counterexample): on the one-time window-resume jump the step-up
limits do not apply: resuming from frost (actuator at 5 °C) the cycle sends
25 °C — an increase of 20 °C, far above both the normal (0.5 °C) and
fast-recovery (2 °C) step-up limits. -/
theorem c6_counterexample :
    cycle_tado_setpoint
        (run_regulation_cycle ccfg_default hcfg_default cst_resume (some 17) none (some 5)
          none none (some ("climate.tado")) true 1000 500) = some 5 ∧
    cycle_command_target
        (run_regulation_cycle ccfg_default hcfg_default cst_resume (some 17) none (some 5)
          none none (some ("climate.tado")) true 1000 500) = some 25 ∧
    cycle_should_send
        (run_regulation_cycle ccfg_default hcfg_default cst_resume (some 17) none (some 5)
          none none (some ("climate.tado")) true 1000 500) = true ∧
    cycle_resume_jump
        (run_regulation_cycle ccfg_default hcfg_default cst_resume (some 17) none (some 5)
          none none (some ("climate.tado")) true 1000 500) = true ∧
    ¬((25 : ℚ) - 5
        ≤ (if cycle_fast_recovery
              (run_regulation_cycle ccfg_default hcfg_default cst_resume (some 17) none (some 5)
                none none (some ("climate.tado")) true 1000 500)
           then FAST_RECOVERY_MAX_STEP_UP_C else MAX_STEP_UP_C)) := by
  with_unfolding_all decide

/-- C6 (amended): for every accepted increase over a known actuator setpoint
(a multiple of 0.1 °C), the sent command exceeds it by at most
`MAX_STEP_UP_C` (normal) or `FAST_RECOVERY_MAX_STEP_UP_C` (when fast
recovery is active) — **or** the one-time window-resume jump was taken, which
bypasses the step-up limit entirely. -/
theorem c6_step_up_bound_amended (cfg : Climate.RegulationConfig) (hcfg : HybridConfig)
    (self : ClimateState) (room si ss ci cs : Option ℚ) (src : Option String) (wok : Bool)
    (nw nm cur cmd : ℚ) (k : ℤ)
    (hsp : cycle_tado_setpoint (run_regulation_cycle cfg hcfg self room si ss ci cs src wok nw nm)
        = some cur)
    (hk : cur = (k : ℚ) / 10)
    (hcmd : cycle_command_target (run_regulation_cycle cfg hcfg self room si ss ci cs src wok nw nm)
        = some cmd)
    (hsend : cycle_should_send (run_regulation_cycle cfg hcfg self room si ss ci cs src wok nw nm)
        = true)
    (hinc : cur < cmd) :
    cmd - cur
      ≤ (if cycle_fast_recovery (run_regulation_cycle cfg hcfg self room si ss ci cs src wok nw nm)
         then FAST_RECOVERY_MAX_STEP_UP_C else MAX_STEP_UP_C) ∨
    cycle_resume_jump (run_regulation_cycle cfg hcfg self room si ss ci cs src wok nw nm)
      = true := by
  cases room with
  | none =>
      simp only [run_regulation_cycle, cycle_tado_setpoint] at hsp
      exact Option.noConfusion hsp
  | some rt =>
      simp only [run_regulation_cycle] at hsp hcmd hsend ⊢
      split_ifs at hsp hcmd hsend ⊢ <;>
        first
          | exact Option.noConfusion hsp
          | (try simp only [cycle_tado_setpoint] at hsp
             try simp only [cycle_command_target] at hcmd
             try simp only [cycle_should_send] at hsend
             try simp only [cycle_fast_recovery, cycle_resume_jump]
             first
               | exact Option.noConfusion hsp
               | (have hres := main_step_up _ _ _ _ _ _ _ _ _ _ _ _ _ _ _ _ k hsp hk hcmd
                    hsend hinc
                  first
                    | exact hres
                    | (rw [if_pos (by assumption)] at hres
                       exact hres)
                    | (rw [if_neg (by assumption)] at hres
                       exact hres)))

/-- C6 (witness): a fast-recovery (BOOST) increase from 18 °C is stepped to
20 °C — exactly the fast-recovery limit of 2 °C. -/
theorem c6_witness :
    cycle_tado_setpoint
        (run_regulation_cycle ccfg_default hcfg_default cst_base (some 18) none (some 18)
          none none (some ("climate.tado")) true 1000 500) = some 18 ∧
    (18 : ℚ) = ((180 : ℤ) : ℚ) / 10 ∧
    cycle_command_target
        (run_regulation_cycle ccfg_default hcfg_default cst_base (some 18) none (some 18)
          none none (some ("climate.tado")) true 1000 500) = some 20 ∧
    cycle_should_send
        (run_regulation_cycle ccfg_default hcfg_default cst_base (some 18) none (some 18)
          none none (some ("climate.tado")) true 1000 500) = true ∧
    (18 : ℚ) < 20 ∧
    ((20 : ℚ) - 18
        ≤ (if cycle_fast_recovery
              (run_regulation_cycle ccfg_default hcfg_default cst_base (some 18) none (some 18)
                none none (some ("climate.tado")) true 1000 500)
           then FAST_RECOVERY_MAX_STEP_UP_C else MAX_STEP_UP_C) ∨
     cycle_resume_jump
        (run_regulation_cycle ccfg_default hcfg_default cst_base (some 18) none (some 18)
          none none (some ("climate.tado")) true 1000 500) = true) :=
  ⟨by with_unfolding_all decide, by with_unfolding_all decide, by with_unfolding_all decide,
    by with_unfolding_all decide, by with_unfolding_all decide,
    c6_step_up_bound_amended ccfg_default hcfg_default cst_base (some 18) none (some 18)
      none none (some ("climate.tado")) true 1000 500 18 20 180
      (by with_unfolding_all decide) (by with_unfolding_all decide)
      (by with_unfolding_all decide) (by with_unfolding_all decide)
      (by with_unfolding_all decide)⟩

/-- C9: when the room-temperature reading is `None` the cycle is skipped
entirely: the regulator is not invoked, nothing is sent, the hybrid state,
command memory and regulation timestamp are all unchanged, and the reason is
"waiting_for_sensors". -/
theorem c9_missing_sensor_skips_cycle (cfg : Climate.RegulationConfig) (hcfg : HybridConfig)
    (self : ClimateState) (si ss ci cs : Option ℚ) (src : Option String) (wok : Bool)
    (nw nm : ℚ) :
    run_regulation_cycle cfg hcfg self none si ss ci cs src wok nw nm
      = Except.ok
          { state := { self with last_regulation_reason := "waiting_for_sensors" }
            should_send := false
            sent_value := none
            send_log := none
            reason := "waiting_for_sensors"
            desired_target := none
            command_target := none
            tado_setpoint := none
            window_forced := false
            resume_jump_allowed := false } := rfl

/-! ### PID-regulator claim theorem (C10) -/

/-- C10: `PidRegulator.step` with a non-finite setpoint or measurement
returns the `invalid_input_fallback` decision — target = previous target, or
the (Python-`min`/`max`) clamp of the setpoint to the absolute bounds when no
previous target exists — and leaves every field of the persistent state
unchanged. -/
theorem c10_invalid_input_fallback (cfg : Regulation.RegulationConfig) (st : PidState)
    (sp mt : PyFloat) (now : ℚ) (wo fo : Bool)
    (h : is_finite sp = false ∨ is_finite mt = false) :
    (Regulation.step cfg st sp mt now wo fo).2 = st ∧
    (Regulation.step cfg st sp mt now wo fo).1.reason = "invalid_input_fallback" ∧
    (Regulation.step cfg st sp mt now wo fo).1.target_c
      = (match st.last_target_c with
         | some t => PyFloat.fin t
         | none => pyClamp sp (.fin cfg.min_target_c) (.fin cfg.max_target_c)) := by
  simp only [Regulation.step, if_pos h]
  refine ⟨?_, ?_, ?_⟩ <;> trivial

/-- C10 (witness): a NaN setpoint with a fresh state falls back to the
clamped setpoint and changes nothing. -/
theorem c10_witness :
    (is_finite PyFloat.nan = false ∨ is_finite (PyFloat.fin 20) = false) ∧
    ((Regulation.step pcfg_default pst_default PyFloat.nan (.fin 20) 100 false false).2
        = pst_default ∧
     (Regulation.step pcfg_default pst_default PyFloat.nan (.fin 20) 100 false false).1.reason
        = "invalid_input_fallback" ∧
     (Regulation.step pcfg_default pst_default PyFloat.nan (.fin 20) 100 false false).1.target_c
        = (match pst_default.last_target_c with
           | some t => PyFloat.fin t
           | none => pyClamp PyFloat.nan (.fin pcfg_default.min_target_c)
               (.fin pcfg_default.max_target_c))) :=
  ⟨Or.inl rfl,
    c10_invalid_input_fallback pcfg_default pst_default PyFloat.nan (.fin 20) 100 false false
      (Or.inl rfl)⟩
